import Mathlib

/-!
Formal model of the Vietnamese tourism data pipeline (thienreal/pokemon).

Each namespace below is a shallow embedding of one script of the repository:

* `BatchNormalize`   — `code/batch_normalize_provinces.py` (province-name normalizer)
* `MergeExtended`    — `code/merge_tourism_data_extended.py` (date parsing, joins)
* `WeatherFeatures`  — `code/create_weather_extended_features.py` (monthly aggregates)
* `Analysis`         — `analysis/tourism_analysis_extended.py` (features, split)
* `Scrapers`         — `scraper_tourism.py` / `scraper_accommodation.py` and friends
* `ScriptIO`         — CSV paths read and written by each script

Python floats are modelled as exact rationals (`ℚ`); float square roots appear
only through `Real.sqrt` in specification-level accessors.  Machine-level
Unicode operations (`str.lower`, NFD decomposition) are modelled by finite
character tables covering the character repertoire this program works with
(ASCII, Latin-1, Latin Extended-A and the full Vietnamese alphabet).
-/

namespace BatchNormalize

/-- Polymorphic association-list lookup (first match wins), used to model
Python `dict` lookup for dictionaries whose keys are pairwise distinct. -/
def alookup {α β : Type} [DecidableEq α] : List (α × β) → α → Option β
  | [], _ => Option.none
  | p :: ps, k => if p.1 = k then some p.2 else alookup ps k

/-- Python `str.lower()` on the repertoire: pairs `(upper, lower)` where
lowercasing changes the character (generated from the Unicode tables for
U+00C0–U+017F, U+01A0/U+01AF and U+1EA0–U+1EF9). ASCII is handled separately. -/
def lowerTable : List (Char × Char) := [
  ((Char.ofNat 0xC0), (Char.ofNat 0xE0)), ((Char.ofNat 0xC1), (Char.ofNat 0xE1)), ((Char.ofNat 0xC2), (Char.ofNat 0xE2)), ((Char.ofNat 0xC3), (Char.ofNat 0xE3)),
  ((Char.ofNat 0xC4), (Char.ofNat 0xE4)), ((Char.ofNat 0xC5), (Char.ofNat 0xE5)), ((Char.ofNat 0xC6), (Char.ofNat 0xE6)), ((Char.ofNat 0xC7), (Char.ofNat 0xE7)),
  ((Char.ofNat 0xC8), (Char.ofNat 0xE8)), ((Char.ofNat 0xC9), (Char.ofNat 0xE9)), ((Char.ofNat 0xCA), (Char.ofNat 0xEA)), ((Char.ofNat 0xCB), (Char.ofNat 0xEB)),
  ((Char.ofNat 0xCC), (Char.ofNat 0xEC)), ((Char.ofNat 0xCD), (Char.ofNat 0xED)), ((Char.ofNat 0xCE), (Char.ofNat 0xEE)), ((Char.ofNat 0xCF), (Char.ofNat 0xEF)),
  ((Char.ofNat 0xD0), (Char.ofNat 0xF0)), ((Char.ofNat 0xD1), (Char.ofNat 0xF1)), ((Char.ofNat 0xD2), (Char.ofNat 0xF2)), ((Char.ofNat 0xD3), (Char.ofNat 0xF3)),
  ((Char.ofNat 0xD4), (Char.ofNat 0xF4)), ((Char.ofNat 0xD5), (Char.ofNat 0xF5)), ((Char.ofNat 0xD6), (Char.ofNat 0xF6)), ((Char.ofNat 0xD8), (Char.ofNat 0xF8)),
  ((Char.ofNat 0xD9), (Char.ofNat 0xF9)), ((Char.ofNat 0xDA), (Char.ofNat 0xFA)), ((Char.ofNat 0xDB), (Char.ofNat 0xFB)), ((Char.ofNat 0xDC), (Char.ofNat 0xFC)),
  ((Char.ofNat 0xDD), (Char.ofNat 0xFD)), ((Char.ofNat 0xDE), (Char.ofNat 0xFE)), ((Char.ofNat 0x100), (Char.ofNat 0x101)), ((Char.ofNat 0x102), (Char.ofNat 0x103)),
  ((Char.ofNat 0x104), (Char.ofNat 0x105)), ((Char.ofNat 0x106), (Char.ofNat 0x107)), ((Char.ofNat 0x108), (Char.ofNat 0x109)), ((Char.ofNat 0x10A), (Char.ofNat 0x10B)),
  ((Char.ofNat 0x10C), (Char.ofNat 0x10D)), ((Char.ofNat 0x10E), (Char.ofNat 0x10F)), ((Char.ofNat 0x110), (Char.ofNat 0x111)), ((Char.ofNat 0x112), (Char.ofNat 0x113)),
  ((Char.ofNat 0x114), (Char.ofNat 0x115)), ((Char.ofNat 0x116), (Char.ofNat 0x117)), ((Char.ofNat 0x118), (Char.ofNat 0x119)), ((Char.ofNat 0x11A), (Char.ofNat 0x11B)),
  ((Char.ofNat 0x11C), (Char.ofNat 0x11D)), ((Char.ofNat 0x11E), (Char.ofNat 0x11F)), ((Char.ofNat 0x120), (Char.ofNat 0x121)), ((Char.ofNat 0x122), (Char.ofNat 0x123)),
  ((Char.ofNat 0x124), (Char.ofNat 0x125)), ((Char.ofNat 0x126), (Char.ofNat 0x127)), ((Char.ofNat 0x128), (Char.ofNat 0x129)), ((Char.ofNat 0x12A), (Char.ofNat 0x12B)),
  ((Char.ofNat 0x12C), (Char.ofNat 0x12D)), ((Char.ofNat 0x12E), (Char.ofNat 0x12F)), ((Char.ofNat 0x132), (Char.ofNat 0x133)), ((Char.ofNat 0x134), (Char.ofNat 0x135)),
  ((Char.ofNat 0x136), (Char.ofNat 0x137)), ((Char.ofNat 0x139), (Char.ofNat 0x13A)), ((Char.ofNat 0x13B), (Char.ofNat 0x13C)), ((Char.ofNat 0x13D), (Char.ofNat 0x13E)),
  ((Char.ofNat 0x13F), (Char.ofNat 0x140)), ((Char.ofNat 0x141), (Char.ofNat 0x142)), ((Char.ofNat 0x143), (Char.ofNat 0x144)), ((Char.ofNat 0x145), (Char.ofNat 0x146)),
  ((Char.ofNat 0x147), (Char.ofNat 0x148)), ((Char.ofNat 0x14A), (Char.ofNat 0x14B)), ((Char.ofNat 0x14C), (Char.ofNat 0x14D)), ((Char.ofNat 0x14E), (Char.ofNat 0x14F)),
  ((Char.ofNat 0x150), (Char.ofNat 0x151)), ((Char.ofNat 0x152), (Char.ofNat 0x153)), ((Char.ofNat 0x154), (Char.ofNat 0x155)), ((Char.ofNat 0x156), (Char.ofNat 0x157)),
  ((Char.ofNat 0x158), (Char.ofNat 0x159)), ((Char.ofNat 0x15A), (Char.ofNat 0x15B)), ((Char.ofNat 0x15C), (Char.ofNat 0x15D)), ((Char.ofNat 0x15E), (Char.ofNat 0x15F)),
  ((Char.ofNat 0x160), (Char.ofNat 0x161)), ((Char.ofNat 0x162), (Char.ofNat 0x163)), ((Char.ofNat 0x164), (Char.ofNat 0x165)), ((Char.ofNat 0x166), (Char.ofNat 0x167)),
  ((Char.ofNat 0x168), (Char.ofNat 0x169)), ((Char.ofNat 0x16A), (Char.ofNat 0x16B)), ((Char.ofNat 0x16C), (Char.ofNat 0x16D)), ((Char.ofNat 0x16E), (Char.ofNat 0x16F)),
  ((Char.ofNat 0x170), (Char.ofNat 0x171)), ((Char.ofNat 0x172), (Char.ofNat 0x173)), ((Char.ofNat 0x174), (Char.ofNat 0x175)), ((Char.ofNat 0x176), (Char.ofNat 0x177)),
  ((Char.ofNat 0x178), (Char.ofNat 0xFF)), ((Char.ofNat 0x179), (Char.ofNat 0x17A)), ((Char.ofNat 0x17B), (Char.ofNat 0x17C)), ((Char.ofNat 0x17D), (Char.ofNat 0x17E)),
  ((Char.ofNat 0x1A0), (Char.ofNat 0x1A1)), ((Char.ofNat 0x1AF), (Char.ofNat 0x1B0)), ((Char.ofNat 0x1EA0), (Char.ofNat 0x1EA1)), ((Char.ofNat 0x1EA2), (Char.ofNat 0x1EA3)),
  ((Char.ofNat 0x1EA4), (Char.ofNat 0x1EA5)), ((Char.ofNat 0x1EA6), (Char.ofNat 0x1EA7)), ((Char.ofNat 0x1EA8), (Char.ofNat 0x1EA9)), ((Char.ofNat 0x1EAA), (Char.ofNat 0x1EAB)),
  ((Char.ofNat 0x1EAC), (Char.ofNat 0x1EAD)), ((Char.ofNat 0x1EAE), (Char.ofNat 0x1EAF)), ((Char.ofNat 0x1EB0), (Char.ofNat 0x1EB1)), ((Char.ofNat 0x1EB2), (Char.ofNat 0x1EB3)),
  ((Char.ofNat 0x1EB4), (Char.ofNat 0x1EB5)), ((Char.ofNat 0x1EB6), (Char.ofNat 0x1EB7)), ((Char.ofNat 0x1EB8), (Char.ofNat 0x1EB9)), ((Char.ofNat 0x1EBA), (Char.ofNat 0x1EBB)),
  ((Char.ofNat 0x1EBC), (Char.ofNat 0x1EBD)), ((Char.ofNat 0x1EBE), (Char.ofNat 0x1EBF)), ((Char.ofNat 0x1EC0), (Char.ofNat 0x1EC1)), ((Char.ofNat 0x1EC2), (Char.ofNat 0x1EC3)),
  ((Char.ofNat 0x1EC4), (Char.ofNat 0x1EC5)), ((Char.ofNat 0x1EC6), (Char.ofNat 0x1EC7)), ((Char.ofNat 0x1EC8), (Char.ofNat 0x1EC9)), ((Char.ofNat 0x1ECA), (Char.ofNat 0x1ECB)),
  ((Char.ofNat 0x1ECC), (Char.ofNat 0x1ECD)), ((Char.ofNat 0x1ECE), (Char.ofNat 0x1ECF)), ((Char.ofNat 0x1ED0), (Char.ofNat 0x1ED1)), ((Char.ofNat 0x1ED2), (Char.ofNat 0x1ED3)),
  ((Char.ofNat 0x1ED4), (Char.ofNat 0x1ED5)), ((Char.ofNat 0x1ED6), (Char.ofNat 0x1ED7)), ((Char.ofNat 0x1ED8), (Char.ofNat 0x1ED9)), ((Char.ofNat 0x1EDA), (Char.ofNat 0x1EDB)),
  ((Char.ofNat 0x1EDC), (Char.ofNat 0x1EDD)), ((Char.ofNat 0x1EDE), (Char.ofNat 0x1EDF)), ((Char.ofNat 0x1EE0), (Char.ofNat 0x1EE1)), ((Char.ofNat 0x1EE2), (Char.ofNat 0x1EE3)),
  ((Char.ofNat 0x1EE4), (Char.ofNat 0x1EE5)), ((Char.ofNat 0x1EE6), (Char.ofNat 0x1EE7)), ((Char.ofNat 0x1EE8), (Char.ofNat 0x1EE9)), ((Char.ofNat 0x1EEA), (Char.ofNat 0x1EEB)),
  ((Char.ofNat 0x1EEC), (Char.ofNat 0x1EED)), ((Char.ofNat 0x1EEE), (Char.ofNat 0x1EEF)), ((Char.ofNat 0x1EF0), (Char.ofNat 0x1EF1)), ((Char.ofNat 0x1EF2), (Char.ofNat 0x1EF3)),
  ((Char.ofNat 0x1EF4), (Char.ofNat 0x1EF5)), ((Char.ofNat 0x1EF6), (Char.ofNat 0x1EF7)), ((Char.ofNat 0x1EF8), (Char.ofNat 0x1EF9))
]
/-- Unicode NFD decomposition followed by removal of combining marks, per
character: each precomposed letter of the repertoire maps to its base letter
(generated from the Unicode data; `đ`/`Đ` do not decompose and are absent). -/
def nfdTable : List (Char × Char) := [
  ((Char.ofNat 0xC0), 'A'), ((Char.ofNat 0xC1), 'A'), ((Char.ofNat 0xC2), 'A'), ((Char.ofNat 0xC3), 'A'),
  ((Char.ofNat 0xC4), 'A'), ((Char.ofNat 0xC5), 'A'), ((Char.ofNat 0xC7), 'C'), ((Char.ofNat 0xC8), 'E'),
  ((Char.ofNat 0xC9), 'E'), ((Char.ofNat 0xCA), 'E'), ((Char.ofNat 0xCB), 'E'), ((Char.ofNat 0xCC), 'I'),
  ((Char.ofNat 0xCD), 'I'), ((Char.ofNat 0xCE), 'I'), ((Char.ofNat 0xCF), 'I'), ((Char.ofNat 0xD1), 'N'),
  ((Char.ofNat 0xD2), 'O'), ((Char.ofNat 0xD3), 'O'), ((Char.ofNat 0xD4), 'O'), ((Char.ofNat 0xD5), 'O'),
  ((Char.ofNat 0xD6), 'O'), ((Char.ofNat 0xD9), 'U'), ((Char.ofNat 0xDA), 'U'), ((Char.ofNat 0xDB), 'U'),
  ((Char.ofNat 0xDC), 'U'), ((Char.ofNat 0xDD), 'Y'), ((Char.ofNat 0xE0), 'a'), ((Char.ofNat 0xE1), 'a'),
  ((Char.ofNat 0xE2), 'a'), ((Char.ofNat 0xE3), 'a'), ((Char.ofNat 0xE4), 'a'), ((Char.ofNat 0xE5), 'a'),
  ((Char.ofNat 0xE7), 'c'), ((Char.ofNat 0xE8), 'e'), ((Char.ofNat 0xE9), 'e'), ((Char.ofNat 0xEA), 'e'),
  ((Char.ofNat 0xEB), 'e'), ((Char.ofNat 0xEC), 'i'), ((Char.ofNat 0xED), 'i'), ((Char.ofNat 0xEE), 'i'),
  ((Char.ofNat 0xEF), 'i'), ((Char.ofNat 0xF1), 'n'), ((Char.ofNat 0xF2), 'o'), ((Char.ofNat 0xF3), 'o'),
  ((Char.ofNat 0xF4), 'o'), ((Char.ofNat 0xF5), 'o'), ((Char.ofNat 0xF6), 'o'), ((Char.ofNat 0xF9), 'u'),
  ((Char.ofNat 0xFA), 'u'), ((Char.ofNat 0xFB), 'u'), ((Char.ofNat 0xFC), 'u'), ((Char.ofNat 0xFD), 'y'),
  ((Char.ofNat 0xFF), 'y'), ((Char.ofNat 0x100), 'A'), ((Char.ofNat 0x101), 'a'), ((Char.ofNat 0x102), 'A'),
  ((Char.ofNat 0x103), 'a'), ((Char.ofNat 0x104), 'A'), ((Char.ofNat 0x105), 'a'), ((Char.ofNat 0x106), 'C'),
  ((Char.ofNat 0x107), 'c'), ((Char.ofNat 0x108), 'C'), ((Char.ofNat 0x109), 'c'), ((Char.ofNat 0x10A), 'C'),
  ((Char.ofNat 0x10B), 'c'), ((Char.ofNat 0x10C), 'C'), ((Char.ofNat 0x10D), 'c'), ((Char.ofNat 0x10E), 'D'),
  ((Char.ofNat 0x10F), 'd'), ((Char.ofNat 0x112), 'E'), ((Char.ofNat 0x113), 'e'), ((Char.ofNat 0x114), 'E'),
  ((Char.ofNat 0x115), 'e'), ((Char.ofNat 0x116), 'E'), ((Char.ofNat 0x117), 'e'), ((Char.ofNat 0x118), 'E'),
  ((Char.ofNat 0x119), 'e'), ((Char.ofNat 0x11A), 'E'), ((Char.ofNat 0x11B), 'e'), ((Char.ofNat 0x11C), 'G'),
  ((Char.ofNat 0x11D), 'g'), ((Char.ofNat 0x11E), 'G'), ((Char.ofNat 0x11F), 'g'), ((Char.ofNat 0x120), 'G'),
  ((Char.ofNat 0x121), 'g'), ((Char.ofNat 0x122), 'G'), ((Char.ofNat 0x123), 'g'), ((Char.ofNat 0x124), 'H'),
  ((Char.ofNat 0x125), 'h'), ((Char.ofNat 0x128), 'I'), ((Char.ofNat 0x129), 'i'), ((Char.ofNat 0x12A), 'I'),
  ((Char.ofNat 0x12B), 'i'), ((Char.ofNat 0x12C), 'I'), ((Char.ofNat 0x12D), 'i'), ((Char.ofNat 0x12E), 'I'),
  ((Char.ofNat 0x12F), 'i'), ((Char.ofNat 0x130), 'I'), ((Char.ofNat 0x134), 'J'), ((Char.ofNat 0x135), 'j'),
  ((Char.ofNat 0x136), 'K'), ((Char.ofNat 0x137), 'k'), ((Char.ofNat 0x139), 'L'), ((Char.ofNat 0x13A), 'l'),
  ((Char.ofNat 0x13B), 'L'), ((Char.ofNat 0x13C), 'l'), ((Char.ofNat 0x13D), 'L'), ((Char.ofNat 0x13E), 'l'),
  ((Char.ofNat 0x143), 'N'), ((Char.ofNat 0x144), 'n'), ((Char.ofNat 0x145), 'N'), ((Char.ofNat 0x146), 'n'),
  ((Char.ofNat 0x147), 'N'), ((Char.ofNat 0x148), 'n'), ((Char.ofNat 0x14C), 'O'), ((Char.ofNat 0x14D), 'o'),
  ((Char.ofNat 0x14E), 'O'), ((Char.ofNat 0x14F), 'o'), ((Char.ofNat 0x150), 'O'), ((Char.ofNat 0x151), 'o'),
  ((Char.ofNat 0x154), 'R'), ((Char.ofNat 0x155), 'r'), ((Char.ofNat 0x156), 'R'), ((Char.ofNat 0x157), 'r'),
  ((Char.ofNat 0x158), 'R'), ((Char.ofNat 0x159), 'r'), ((Char.ofNat 0x15A), 'S'), ((Char.ofNat 0x15B), 's'),
  ((Char.ofNat 0x15C), 'S'), ((Char.ofNat 0x15D), 's'), ((Char.ofNat 0x15E), 'S'), ((Char.ofNat 0x15F), 's'),
  ((Char.ofNat 0x160), 'S'), ((Char.ofNat 0x161), 's'), ((Char.ofNat 0x162), 'T'), ((Char.ofNat 0x163), 't'),
  ((Char.ofNat 0x164), 'T'), ((Char.ofNat 0x165), 't'), ((Char.ofNat 0x168), 'U'), ((Char.ofNat 0x169), 'u'),
  ((Char.ofNat 0x16A), 'U'), ((Char.ofNat 0x16B), 'u'), ((Char.ofNat 0x16C), 'U'), ((Char.ofNat 0x16D), 'u'),
  ((Char.ofNat 0x16E), 'U'), ((Char.ofNat 0x16F), 'u'), ((Char.ofNat 0x170), 'U'), ((Char.ofNat 0x171), 'u'),
  ((Char.ofNat 0x172), 'U'), ((Char.ofNat 0x173), 'u'), ((Char.ofNat 0x174), 'W'), ((Char.ofNat 0x175), 'w'),
  ((Char.ofNat 0x176), 'Y'), ((Char.ofNat 0x177), 'y'), ((Char.ofNat 0x178), 'Y'), ((Char.ofNat 0x179), 'Z'),
  ((Char.ofNat 0x17A), 'z'), ((Char.ofNat 0x17B), 'Z'), ((Char.ofNat 0x17C), 'z'), ((Char.ofNat 0x17D), 'Z'),
  ((Char.ofNat 0x17E), 'z'), ((Char.ofNat 0x1A0), 'O'), ((Char.ofNat 0x1A1), 'o'), ((Char.ofNat 0x1AF), 'U'),
  ((Char.ofNat 0x1B0), 'u'), ((Char.ofNat 0x1EA0), 'A'), ((Char.ofNat 0x1EA1), 'a'), ((Char.ofNat 0x1EA2), 'A'),
  ((Char.ofNat 0x1EA3), 'a'), ((Char.ofNat 0x1EA4), 'A'), ((Char.ofNat 0x1EA5), 'a'), ((Char.ofNat 0x1EA6), 'A'),
  ((Char.ofNat 0x1EA7), 'a'), ((Char.ofNat 0x1EA8), 'A'), ((Char.ofNat 0x1EA9), 'a'), ((Char.ofNat 0x1EAA), 'A'),
  ((Char.ofNat 0x1EAB), 'a'), ((Char.ofNat 0x1EAC), 'A'), ((Char.ofNat 0x1EAD), 'a'), ((Char.ofNat 0x1EAE), 'A'),
  ((Char.ofNat 0x1EAF), 'a'), ((Char.ofNat 0x1EB0), 'A'), ((Char.ofNat 0x1EB1), 'a'), ((Char.ofNat 0x1EB2), 'A'),
  ((Char.ofNat 0x1EB3), 'a'), ((Char.ofNat 0x1EB4), 'A'), ((Char.ofNat 0x1EB5), 'a'), ((Char.ofNat 0x1EB6), 'A'),
  ((Char.ofNat 0x1EB7), 'a'), ((Char.ofNat 0x1EB8), 'E'), ((Char.ofNat 0x1EB9), 'e'), ((Char.ofNat 0x1EBA), 'E'),
  ((Char.ofNat 0x1EBB), 'e'), ((Char.ofNat 0x1EBC), 'E'), ((Char.ofNat 0x1EBD), 'e'), ((Char.ofNat 0x1EBE), 'E'),
  ((Char.ofNat 0x1EBF), 'e'), ((Char.ofNat 0x1EC0), 'E'), ((Char.ofNat 0x1EC1), 'e'), ((Char.ofNat 0x1EC2), 'E'),
  ((Char.ofNat 0x1EC3), 'e'), ((Char.ofNat 0x1EC4), 'E'), ((Char.ofNat 0x1EC5), 'e'), ((Char.ofNat 0x1EC6), 'E'),
  ((Char.ofNat 0x1EC7), 'e'), ((Char.ofNat 0x1EC8), 'I'), ((Char.ofNat 0x1EC9), 'i'), ((Char.ofNat 0x1ECA), 'I'),
  ((Char.ofNat 0x1ECB), 'i'), ((Char.ofNat 0x1ECC), 'O'), ((Char.ofNat 0x1ECD), 'o'), ((Char.ofNat 0x1ECE), 'O'),
  ((Char.ofNat 0x1ECF), 'o'), ((Char.ofNat 0x1ED0), 'O'), ((Char.ofNat 0x1ED1), 'o'), ((Char.ofNat 0x1ED2), 'O'),
  ((Char.ofNat 0x1ED3), 'o'), ((Char.ofNat 0x1ED4), 'O'), ((Char.ofNat 0x1ED5), 'o'), ((Char.ofNat 0x1ED6), 'O'),
  ((Char.ofNat 0x1ED7), 'o'), ((Char.ofNat 0x1ED8), 'O'), ((Char.ofNat 0x1ED9), 'o'), ((Char.ofNat 0x1EDA), 'O'),
  ((Char.ofNat 0x1EDB), 'o'), ((Char.ofNat 0x1EDC), 'O'), ((Char.ofNat 0x1EDD), 'o'), ((Char.ofNat 0x1EDE), 'O'),
  ((Char.ofNat 0x1EDF), 'o'), ((Char.ofNat 0x1EE0), 'O'), ((Char.ofNat 0x1EE1), 'o'), ((Char.ofNat 0x1EE2), 'O'),
  ((Char.ofNat 0x1EE3), 'o'), ((Char.ofNat 0x1EE4), 'U'), ((Char.ofNat 0x1EE5), 'u'), ((Char.ofNat 0x1EE6), 'U'),
  ((Char.ofNat 0x1EE7), 'u'), ((Char.ofNat 0x1EE8), 'U'), ((Char.ofNat 0x1EE9), 'u'), ((Char.ofNat 0x1EEA), 'U'),
  ((Char.ofNat 0x1EEB), 'u'), ((Char.ofNat 0x1EEC), 'U'), ((Char.ofNat 0x1EED), 'u'), ((Char.ofNat 0x1EEE), 'U'),
  ((Char.ofNat 0x1EEF), 'u'), ((Char.ofNat 0x1EF0), 'U'), ((Char.ofNat 0x1EF1), 'u'), ((Char.ofNat 0x1EF2), 'Y'),
  ((Char.ofNat 0x1EF3), 'y'), ((Char.ofNat 0x1EF4), 'Y'), ((Char.ofNat 0x1EF5), 'y'), ((Char.ofNat 0x1EF6), 'Y'),
  ((Char.ofNat 0x1EF7), 'y'), ((Char.ofNat 0x1EF8), 'Y'), ((Char.ofNat 0x1EF9), 'y')
]

/-- Python `str.lower()` for one character (ASCII plus the table above). -/
def pyLower (c : Char) : Char :=
  if 'A' ≤ c ∧ c ≤ 'Z' then Char.ofNat (c.toNat + 32)
  else (alookup lowerTable c).getD c

/-- Combining marks (Unicode category Mn) in the repertoire: U+0300–U+036F. -/
def isMn (c : Char) : Bool := 0x300 ≤ c.toNat && c.toNat ≤ 0x36F

/-- One character of `unicodedata.normalize("NFD", ·)` followed by dropping
category-Mn characters: combining marks vanish, precomposed letters lose
their accents, everything else is unchanged. -/
def nfdStrip (c : Char) : List Char :=
  if isMn c then [] else [(alookup nfdTable c).getD c]

/-- Python `str.isspace` / regex `\s` for `str` patterns (Unicode whitespace). -/
def isPyWs (c : Char) : Bool :=
  c.toNat ∈ [0x20, 0x09, 0x0A, 0x0B, 0x0C, 0x0D, 0x1C, 0x1D, 0x1E, 0x1F,
              0x85, 0xA0, 0x1680, 0x2028, 0x2029, 0x202F, 0x205F, 0x3000]
  || (0x2000 ≤ c.toNat && c.toNat ≤ 0x200A)

/-- Python `str.strip()` on a character list. -/
def stripL (l : List Char) : List Char :=
  ((l.dropWhile isPyWs).reverse.dropWhile isPyWs).reverse

/-- Python `str.strip()`. -/
def pyStrip (s : String) : String := ⟨stripL s.data⟩

/-- `re.sub(r"\s+", " ", ·)` helper: the flag records whether the previous
character was whitespace (i.e. we are inside a run already emitted as one
space). -/
def collapseWsGo : Bool → List Char → List Char
  | _, [] => []
  | prevWs, c :: cs =>
    if isPyWs c then
      if prevWs then collapseWsGo true cs else ' ' :: collapseWsGo true cs
    else c :: collapseWsGo false cs

/-- `re.sub(r"\s+", " ", ·)`: each maximal whitespace run becomes one space. -/
def collapseWs (l : List Char) : List Char := collapseWsGo false l

/-- Characters kept by `re.sub(r"[^a-z0-9\s\-]", "", ·)`. -/
def isAllowed (c : Char) : Bool :=
  ('a' ≤ c && c ≤ 'z') || ('0' ≤ c && c ≤ '9') || isPyWs c || c = '-'

/-- `normalize` of `batch_normalize_provinces.py` (lines 17–26): lowercase,
strip accents, unify dashes, keep alphanumerics/space/hyphen. -/
def normalize (text : String) : String :=
  let s1 := stripL text.data
  let s2 := s1.map pyLower
  let s3 := s2.map fun c =>
    if c = Char.ofNat 0x111 ∨ c = Char.ofNat 0x110 then 'd' else c
  let s4 := s3.map fun c =>
    if c = Char.ofNat 0x2013 ∨ c = Char.ofNat 0x2014 then '-' else c
  let s5 := s4.flatMap nfdStrip
  let s6 := collapseWs s5
  let s7 := s6.filter isAllowed
  ⟨stripL s7⟩

end BatchNormalize

namespace BatchNormalize

/-- `bytes(s, "latin1", errors="ignore")`: characters above U+00FF are dropped,
the rest map to their codepoint byte. -/
def latin1Encode (l : List Char) : List Nat :=
  l.filterMap fun c => if c.toNat ≤ 0xFF then some c.toNat else Option.none

/-- Is `b` a UTF-8 continuation byte? -/
def isCont (b : Nat) : Bool := 0x80 ≤ b && b ≤ 0xBF

/-- UTF-8 decoding with `errors="ignore"`: invalid maximal subparts are
skipped.  `fuel` only drives the recursion; one unit is spent per decoded
character or skipped byte, so `fuel = length` always suffices. -/
def utf8DecodeGo : Nat → List Nat → List Char
  | 0, _ => []
  | _, [] => []
  | fuel + 1, b :: bs =>
    if b < 0x80 then Char.ofNat b :: utf8DecodeGo fuel bs
    else if 0xC2 ≤ b && b ≤ 0xDF then
      match bs with
      | [] => []
      | b1 :: bs1 =>
        if isCont b1 then
          Char.ofNat ((b - 0xC0) * 0x40 + (b1 - 0x80)) :: utf8DecodeGo fuel bs1
        else utf8DecodeGo fuel bs
    else if 0xE0 ≤ b && b ≤ 0xEF then
      match bs with
      | [] => []
      | b1 :: bs1 =>
        let ok1 := if b = 0xE0 then 0xA0 ≤ b1 && b1 ≤ 0xBF
                   else if b = 0xED then 0x80 ≤ b1 && b1 ≤ 0x9F
                   else isCont b1
        if ok1 then
          match bs1 with
          | [] => []
          | b2 :: bs2 =>
            if isCont b2 then
              Char.ofNat ((b - 0xE0) * 0x1000 + (b1 - 0x80) * 0x40 + (b2 - 0x80)) ::
                utf8DecodeGo fuel bs2
            else utf8DecodeGo fuel bs1
        else utf8DecodeGo fuel bs
    else if 0xF0 ≤ b && b ≤ 0xF4 then
      match bs with
      | [] => []
      | b1 :: bs1 =>
        let ok1 := if b = 0xF0 then 0x90 ≤ b1 && b1 ≤ 0xBF
                   else if b = 0xF4 then 0x80 ≤ b1 && b1 ≤ 0x8F
                   else isCont b1
        if ok1 then
          match bs1 with
          | [] => []
          | b2 :: bs2 =>
            if isCont b2 then
              match bs2 with
              | [] => []
              | b3 :: bs3 =>
                if isCont b3 then
                  Char.ofNat ((b - 0xF0) * 0x40000 + (b1 - 0x80) * 0x1000 +
                      (b2 - 0x80) * 0x40 + (b3 - 0x80)) :: utf8DecodeGo fuel bs3
                else utf8DecodeGo fuel bs2
            else utf8DecodeGo fuel bs1
        else utf8DecodeGo fuel bs
    else utf8DecodeGo fuel bs

/-- `raw.encode("latin1", errors="ignore").decode("utf-8", errors="ignore")`
(lines 157–158 of `batch_normalize_provinces.py`); neither step can raise. -/
def repairMojibake (s : String) : String :=
  ⟨utf8DecodeGo (latin1Encode s.data).length (latin1Encode s.data)⟩

/-- The literal entries assigned into `alias_map` by `alias_map.update({...})`
(lines 39–64), in source order; keys written there via `normalize(...)` keep
that call. -/
def aliasLiteralUpdates : List (String × String) := [
  ("dac lak", "Đắk Lắk"),
  ("dac nong", "Lâm Đồng"),
  ("ba ria - vung tau", "TP. Hồ Chí Minh"),
  ("ba ria vung tau", "TP. Hồ Chí Minh"),
  (normalize "Hà Nội", "TP. Hà Nội"),
  (normalize "Hải Phòng", "TP. Hải Phòng"),
  (normalize "Huế", "TP. Huế"),
  (normalize "Đà Nẵng", "TP. Đà Nẵng"),
  (normalize "Cần Thơ", "TP. Cần Thơ"),
  (normalize "Thừa Thiên Huế", "TP. Huế"),
  ("tp ho chi minh", "TP. Hồ Chí Minh"),
  (normalize "Đồng bằng sông Hồng", "TP. Hà Nội"),
  (normalize "Trung du và miền núi phía Bắc", "Cao Bằng"),
  (normalize "Bắc Trung Bộ và Duyên hải miền Trung", "Thanh Hóa"),
  (normalize "Tây Nguyên", "Đắk Lắk"),
  (normalize "Đông Nam Bộ", "TP. Hồ Chí Minh"),
  (normalize "Đồng bằng sông Cửu Long", "TP. Cần Thơ"),
  (normalize "Thừa Thiên - Huế", "TP. Huế"),
]

/-- `CORRUPTED_WEATHER` (lines 67–99): raw mangled strings mapped directly to
repaired names.  Keys are transcribed byte-exactly; `\u0301`/`\u0323` are the
combining marks present in the source literals. -/
def CORRUPTED_WEATHER : List (String × String) := [
  ("B¯c Ninh", "Bắc Ninh"),
  ("Qu£ng Ninh", "Quảng Ninh"),
  ("Lâm \u0010Óng", "Lâm Đồng"),
  ("Thái Nguyên", "Thái Nguyên"),
  ("H°ng Yên", "Hưng Yên"),
  ("\u0010iÇn Biên", "Điện Biên"),
  ("Qu£ng TrË", "Quảng Trị"),
  ("Gia Lai", "Gia Lai"),
  ("Cao B±ng", "Cao Bằng"),
  ("An Giang", "An Giang"),
  ("\u0010¯k L¯k", "Đắk Lắk"),
  ("TP. \u0010à Nµng", "TP. Đà Nẵng"),
  ("V)nh Long", "Vĩnh Long"),
  ("Tây Ninh", "Tây Ninh"),
  ("Qu£ng Ngãi", "Quảng Ngãi"),
  ("Thanh Hóa", "Thanh Hóa"),
  ("TP. C§n Th¡", "TP. Cần Thơ"),
  ("Lào Cai", "Lào Cai"),
  ("Phú ThÍ", "Phú Thọ"),
  ("\u0010Óng Nai", "Đồng Nai"),
  ("\u0010Óng Tháp", "Đồng Tháp"),
  ("Cà Mau", "Cà Mau"),
  ("Hà T)nh", "Hà Tĩnh"),
  ("L¡ng S¡n", "Lạng Sơn"),
  ("NghÇ An", "Nghệ An"),
  ("Ninh B\u0301nh", "Ninh Bình"),
  ("Qu£ng Ngăi", "Quảng Ngãi"),
  ("S¡n La", "Sơn La"),
  ("TP. H£i Ph\u0323ng", "TP. Hải Phòng"),
  ("TP. H£i Phòng", "TP. Hải Phòng"),
  ("TP. HÓ Chí Minh", "TP. Hồ Chí Minh"),
]

/-- `DISTRICT_MAP` (lines 102–135): curated district/city to province map. -/
def DISTRICT_MAP : List (String × String) := [
  ("ho chi minh", "TP. Hồ Chí Minh"),
  ("thanh pho ho chi minh", "TP. Hồ Chí Minh"),
  ("tpho chi minh", "TP. Hồ Chí Minh"),
  ("thua thien hue", "TP. Huế"),
  ("thua thien - hue", "TP. Huế"),
  ("chau doc", "An Giang"),
  ("thanh pho chau doc", "An Giang"),
  ("tri ton", "An Giang"),
  ("tinh bien", "An Giang"),
  ("thoai son", "An Giang"),
  ("long xuyen", "An Giang"),
  ("an phu", "An Giang"),
  ("sa dec", "Đồng Tháp"),
  ("thanh pho sa dec", "Đồng Tháp"),
  ("tam nong", "Đồng Tháp"),
  ("thap muoi", "Đồng Tháp"),
  ("huyen thap muoi", "Đồng Tháp"),
  ("cao lanh", "Đồng Tháp"),
  ("kon ka kinh", "Gia Lai"),
  ("dak lak", "Đắk Lắk"),
  ("ak lak", "Đắk Lắk"),
  ("ac lak", "Đắk Lắk"),
  ("dac lak", "Đắk Lắk"),
  ("dak nong", "Lâm Đồng"),
  ("ak nong", "Lâm Đồng"),
  ("ac nong", "Lâm Đồng"),
  ("dac nong", "Lâm Đồng"),
]

/-- `PREFIXES` (lines 138–147). -/
def PREFIXES : List String :=
  ["vuon quoc gia", "thanh pho", "tp", "thi xa", "quan", "huyen", "thi tran", "di tich"]

/-- Codepoint-lexicographic strict order on character lists: exactly the
comparison Python uses on `str`. -/
def lexLtB : List Char → List Char → Bool
  | [], [] => false
  | [], _ :: _ => true
  | _ :: _, [] => false
  | a :: as, b :: bs => a < b || (a = b && lexLtB as bs)

/-- Python `<=` on strings. -/
def strLeB (a b : String) : Bool := !(lexLtB b.data a.data)

/-- `dict(zip(old, new))`: last value wins per key, iteration order is the
order of first insertion. -/
def pyDict (l : List (String × String)) : List (String × String) :=
  l.foldl (fun acc p =>
    if (alookup acc p.1).isSome then
      acc.map fun q => if q.1 = p.1 then (q.1, p.2) else q
    else acc ++ [p]) []

/-- `canonical_34 = sorted(set(mapping_34["new"].unique()))`.  The mapping CSV
is data, so the whole development is parameterised by its `(old, new)` rows. -/
def canonical34 (mapping : List (String × String)) : List String :=
  List.insertionSort (fun a b => strLeB a b = true) (mapping.map Prod.snd).dedup

/-- Python dicts with string keys, as lookup functions. -/
def SMap := String → Option String

/-- `d[k] = v` on an `SMap`. -/
def upd (f : SMap) (k v : String) : SMap := fun x => if x = k then some v else f x

/-- `alias_map` after the loop over `canonical_34` (lines 31–34). -/
def aliasPhase1 (mapping : List (String × String)) : SMap :=
  (canonical34 mapping).foldl
    (fun f c => let n := normalize c; if n = "" then f else upd f n c)
    (fun _ => Option.none)

/-- `alias_map` after also inserting `old_to_new` items (lines 35–38): an old
name is added only when its normal form is new to the map. -/
def aliasPhase2 (mapping : List (String × String)) : SMap :=
  (pyDict mapping).foldl
    (fun f p =>
      let n := normalize p.1
      if n = "" then f else if (f n).isSome then f else upd f n p.2)
    (aliasPhase1 mapping)

/-- The final `alias_map` after `alias_map.update({...})` (lines 39–64). -/
def aliasMap (mapping : List (String × String)) : SMap :=
  aliasLiteralUpdates.foldl (fun f p => upd f p.1 p.2) (aliasPhase2 mapping)

/-- Input of `normalize_province`: `None`, float NaN, or a Python string
(`pd.isna` is true on the first two). -/
inductive RawInput
  | pyNone
  | pyNaN
  | pyStr (s : String)

/-- The `for prefix in PREFIXES` loop (lines 172–178): for each list entry
that starts the string followed by a space or hyphen, strip it and look the
remainder up in the alias then the district table; `some` on the first hit,
`Option.none` when the loop falls through (the function then returns `""`). -/
def prefixScan (mapping : List (String × String)) (norm : String) :
    List String → Option String
  | [] => Option.none
  | p :: ps =>
    if (p ++ " ").data.isPrefixOf norm.data || (p ++ "-").data.isPrefixOf norm.data then
      let rest : String :=
        ⟨(pyStrip ⟨norm.data.drop p.length⟩).data.map fun c => if c = '-' then ' ' else c⟩
      match aliasMap mapping rest with
      | some v => some v
      | Option.none =>
        match alookup DISTRICT_MAP rest with
        | some v => some v
        | Option.none => prefixScan mapping norm ps
    else prefixScan mapping norm ps

/-- Step (2) of `normalize_province` (lines 156–166): mojibake repair, then
alias- and district-table lookup of the repaired string's normal form,
guarded by `repaired and repaired != raw`. -/
def step2Lookup (m : List (String × String)) (raw : String) : Option String :=
  if repairMojibake raw ≠ "" ∧ repairMojibake raw ≠ raw then
    match aliasMap m (normalize (repairMojibake raw)) with
    | some v => some v
    | Option.none => alookup DISTRICT_MAP (normalize (repairMojibake raw))
  else Option.none

/-- Steps (3)–(5) of `normalize_province` (lines 167–179): alias lookup of
the normal form, district lookup, then the prefix loop; `""` when all miss. -/
def tailLookups (m : List (String × String)) (raw : String) : String :=
  match aliasMap m (normalize raw) with
  | some v => v
  | Option.none =>
    match alookup DISTRICT_MAP (normalize raw) with
    | some v => v
    | Option.none => (prefixScan m (normalize raw) PREFIXES).getD ""

/-- `normalize_province` after the NaN/empty guard (lines 154–179), on the
stripped raw string. -/
def normalizeProvinceStr (m : List (String × String)) (raw : String) : String :=
  match alookup CORRUPTED_WEATHER raw with
  | some v => v
  | Option.none =>
    match step2Lookup m raw with
    | some v => v
    | Option.none => tailLookups m raw

/-- `normalize_province` (lines 150–179), translated clause by clause in the
source's early-return order. -/
def normalize_province (m : List (String × String)) : RawInput → String
  | .pyNone => ""
  | .pyNaN => ""
  | .pyStr s =>
    if pyStrip s = "" then "" else normalizeProvinceStr m (pyStrip s)

/-- The resolution order as the specification describes it, as one
first-hit chain: (1) corrupted-weather table on the raw string, (2) mojibake
repair then alias- and district-table lookup of its normal form, (3) alias
lookup of the normal form, (4) district lookup, (5) the prefix loop.  Unlike
the source, step (2) carries no `repaired != raw` guard. -/
def specChain (m : List (String × String)) (raw : String) : Option String :=
  (alookup CORRUPTED_WEATHER raw) <|>
    ((aliasMap m (normalize (repairMojibake raw))) <|>
      (alookup DISTRICT_MAP (normalize (repairMojibake raw)))) <|>
    (aliasMap m (normalize raw)) <|>
    (alookup DISTRICT_MAP (normalize raw)) <|>
    prefixScan m (normalize raw) PREFIXES

/-- The claim's reading of `normalize_province`: NaN/None/blank to `""`,
otherwise the first hit of the five-step chain, `""` when every step
misses. -/
def normalizeProvinceSpec (m : List (String × String)) : RawInput → String
  | .pyNone => ""
  | .pyNaN => ""
  | .pyStr s =>
    if pyStrip s = "" then "" else (specChain m (pyStrip s)).getD ""

end BatchNormalize

namespace MergeExtended

/-- `pd.Timestamp(year=…, month=…, day=…)`, modelled as a plain calendar
triple (the library's 1677–2262 range restriction is not modelled). -/
structure Timestamp where
  year : Int
  month : Nat
  day : Nat
deriving DecidableEq, Repr

/-- `months_vi` of `parse_vietnamese_date` (lines 14–18). -/
def monthsVi : List (String × Nat) :=
  [("thg 1", 1), ("thg 2", 2), ("thg 3", 3), ("thg 4", 4),
   ("thg 5", 5), ("thg 6", 6), ("thg 7", 7), ("thg 8", 8),
   ("thg 9", 9), ("thg 10", 10), ("thg 11", 11), ("thg 12", 12)]

/-- All-digit char list to a number, `Option.none` otherwise or when empty. -/
def digitsToNat (l : List Char) : Option Nat :=
  if l.isEmpty then Option.none
  else if l.all (fun c => '0' ≤ c && c ≤ '9') then
    some (l.foldl (fun a c => a * 10 + (c.toNat - 48)) 0)
  else Option.none

/-- Python `int(str)`: surrounding whitespace stripped, optional sign, digits;
`Option.none` models the `ValueError` path. -/
def pyInt (s : String) : Option Int :=
  match BatchNormalize.stripL s.data with
  | '+' :: rest => (digitsToNat rest).map Int.ofNat
  | '-' :: rest => (digitsToNat rest).map fun n => -(n : Int)
  | rest => (digitsToNat rest).map Int.ofNat

/-- `date_str.rsplit(' ', 1)` when it yields two parts; `Option.none` when the
string has no space (`parts[1]` would raise `IndexError`). -/
def rsplitOnce (s : String) : Option (String × String) :=
  if s.data.contains ' ' then
    let rev := s.data.reverse
    some (⟨((rev.dropWhile (fun c => c != ' ')).tail).reverse⟩,
          ⟨(rev.takeWhile (fun c => c != ' ')).reverse⟩)
  else Option.none

/-- `parse_vietnamese_date` (lines 12–22): split at the last space, parse the
year, look the label up in `months_vi` with default month 1, day always 1. -/
def parse_vietnamese_date (s : String) : Option Timestamp :=
  match rsplitOnce s with
  | Option.none => Option.none
  | some (monthStr, yearStr) =>
    match pyInt yearStr with
    | Option.none => Option.none
    | some y => some ⟨y, (BatchNormalize.alookup monthsVi monthStr).getD 1, 1⟩

/-- `DataFrame.reset_index()` column naming: a named index contributes a
column of that name; only an unnamed index yields a column called `index`. -/
def resetIndexColumns (indexName : Option String) (cols : List String) : List String :=
  indexName.getD "index" :: cols

/-- `DataFrame.rename(columns=…)`: exact matches are renamed, the rest kept. -/
def renameColumns (ren : List (String × String)) (cols : List String) : List String :=
  cols.map fun c => (BatchNormalize.alookup ren c).getD c

/-- The count columns of `infra_counts` (lines 193–204), in insertion order. -/
def infraCountCols : List String :=
  ["accommodation_count", "restaurant_count", "entertainment_count",
   "healthcare_count", "shop_count"]

/-- Columns of `infra_df` after
`pd.DataFrame(infra_counts).reset_index().rename(columns={'index': 'province'})`
(lines 206–207): the `groupby('province_normalized').size()` series carry the
index name `province_normalized`, so `reset_index` emits that column and the
rename of `index` matches nothing. -/
def infra_df_columns : List String :=
  renameColumns [("index", "province")] (resetIndexColumns (some "province_normalized") infraCountCols)

/-- `left.merge(right, on=key, how='left')` raises `KeyError` unless both
frames have the `on` column. -/
def mergeOnRaisesKeyError (key : String) (leftCols rightCols : List String) : Bool :=
  !(leftCols.contains key) || !(rightCols.contains key)

/-- Columns of `merged` relevant at line 209 (`merged.merge(infra_df,
on='province', how='left')`); `province` is present on the left. -/
def mergedColsAtInfraStep : List String :=
  ["date_parsed", "destination", "traffic", "province", "year", "month", "quarter"]

end MergeExtended

namespace WeatherFeatures

/-- One row of `vietnam_weather_by_province_2011_2025.csv` as used by
`create_weather_extended_features` (floats as exact rationals). -/
structure DailyRow where
  province : String
  date : MergeExtended.Timestamp
  temp_avg : ℚ
  rainfall : ℚ
  latitude : ℚ
  longitude : ℚ
deriving DecidableEq

/-- The `groupby(['province', 'year', 'month'])` key of a daily row, where
`year`/`month` are the columns derived from `date` (lines 28–29). -/
def gkey (r : DailyRow) : String × Int × Nat := (r.province, r.date.year, r.date.month)

/-- Pandas `mean` of a (non-empty) list. -/
def mean (l : List ℚ) : ℚ := l.sum / l.length

/-- Pandas `min` aggregate. -/
def listMin : List ℚ → ℚ
  | [] => 0
  | x :: xs => xs.foldl min x

/-- Pandas `max` aggregate. -/
def listMax : List ℚ → ℚ
  | [] => 0
  | x :: xs => xs.foldl max x

/-- The square of the pandas `std` aggregate (`ddof = 1`): the sample
variance, `Option.none` (NaN) on fewer than two observations.  The final
square root lives in `MonthlyRow.temp_std`. -/
def sampleVar (l : List ℚ) : Option ℚ :=
  if 2 ≤ l.length then
    some ((l.map fun x => (x - mean l) ^ 2).sum / ((l.length : ℚ) - 1))
  else Option.none

/-- Lexicographic order on group keys (pandas sorts group keys ascending). -/
def gkeyLeB (a b : String × Int × Nat) : Bool :=
  BatchNormalize.lexLtB a.1.data b.1.data ||
    (a.1 = b.1 && (a.2.1 < b.2.1 || (a.2.1 = b.2.1 && a.2.2 ≤ b.2.2)))

/-- One row of the monthly aggregate (column order of lines 43–48 and 60–65).
`temp_var` holds the squared `temp_std`; `temp_std` itself is the
specification-level accessor below. -/
structure MonthlyRow where
  province : String
  date : MergeExtended.Timestamp
  year : Int
  month : Nat
  temp_mean : ℚ
  temp_min : ℚ
  temp_max : ℚ
  temp_amplitude : ℚ
  temp_var : Option ℚ
  rainfall_total : ℚ
  rainfall_max_daily : ℚ
  rainfall_mean_daily : ℚ
  rainfall_days : Nat
  latitude : ℚ
  longitude : ℚ
deriving DecidableEq

/-- The `temp_std` column: square root of the sample variance. -/
noncomputable def MonthlyRow.temp_std (r : MonthlyRow) : Option ℝ :=
  r.temp_var.map Real.sqrt

/-- `create_weather_extended_features` (lines 35–57): group the daily rows by
(province, year, month) and aggregate; `'first'` picks the first group row. -/
def create_weather_extended_features (daily : List DailyRow) : List MonthlyRow :=
  (List.insertionSort (fun a b => gkeyLeB a b = true) (daily.map gkey).dedup).map fun k =>
    let g := daily.filter fun d => gkey d = k
    let temps := g.map (·.temp_avg)
    let rains := g.map (·.rainfall)
    { province := k.1
      date := ⟨k.2.1, k.2.2, 1⟩
      year := k.2.1
      month := k.2.2
      temp_mean := mean temps
      temp_min := listMin temps
      temp_max := listMax temps
      temp_amplitude := listMax temps - listMin temps
      temp_var := sampleVar temps
      rainfall_total := rains.sum
      rainfall_max_daily := listMax rains
      rainfall_mean_daily := mean rains
      rainfall_days := (rains.filter fun x => 0 < x).length
      latitude := (g.map (·.latitude)).headD 0
      longitude := (g.map (·.longitude)).headD 0 }

end WeatherFeatures

namespace Analysis

open MergeExtended (Timestamp)

/-- Lexicographic `≤` on timestamps (pandas datetime comparison). -/
def tsLeB (a b : Timestamp) : Bool :=
  a.year < b.year || (a.year = b.year &&
    (a.month < b.month || (a.month = b.month && a.day ≤ b.day)))

/-- Gregorian leap year. -/
def isLeap (y : Int) : Bool := (y % 4 = 0 && y % 100 ≠ 0) || y % 400 = 0

/-- Days in a month. -/
def daysInMonth (y : Int) (m : Nat) : Nat :=
  if m = 2 then (if isLeap y then 29 else 28)
  else if m ∈ [4, 6, 9, 11] then 30
  else 31

/-- `t - pd.DateOffset(months=k)`: month arithmetic with the day clamped to
the target month's length. -/
def subMonths (t : Timestamp) (k : Nat) : Timestamp :=
  let tot : Int := t.year * 12 + ((t.month : Int) - 1) - k
  let y := tot.fdiv 12
  let m := (tot.emod 12).toNat + 1
  ⟨y, m, min t.day (daysInMonth y m)⟩

/-- Pandas `max()` of a timestamp column (meaningful on non-empty input). -/
def listMaxTs : List Timestamp → Timestamp
  | [] => ⟨0, 1, 1⟩
  | t :: ts => ts.foldl (fun a b => if tsLeB a b then b else a) t

/-- One row of `merged_tourism_data_extended.csv` as consumed by the feature
engineering of `tourism_analysis_extended.py`: the three columns the lag,
rolling and split logic reads (the remaining joined columns do not enter
those computations). -/
structure ARow where
  destination : String
  date_parsed : Timestamp
  traffic : Option ℚ
deriving DecidableEq

/-- `df.sort_values(['destination', 'date_parsed'])` key (line 67). -/
def rowLeB (a b : ARow) : Bool :=
  BatchNormalize.lexLtB a.destination.data b.destination.data ||
    (a.destination = b.destination && tsLeB a.date_parsed b.date_parsed)

/-- The sorted frame of line 67. -/
def sortRows (df : List ARow) : List ARow :=
  List.insertionSort (fun a b => rowLeB a b = true) df

/-- `Series.shift(k)`: `k` leading NaNs, the last `k` values fall off. -/
def shiftSeries (k : Nat) (xs : List (Option ℚ)) : List (Option ℚ) :=
  (List.replicate k Option.none ++ xs).take xs.length

/-- The observations a `rolling(w)` window sees at position `i`: the non-null
entries among positions `i - w + 1 … i` (truncated at the start). -/
def windowAt (w : Nat) (xs : List (Option ℚ)) (i : Nat) : List ℚ :=
  ((xs.take (i + 1)).drop (i + 1 - w)).filterMap id

/-- `Series.rolling(w, min_periods=1).mean()`: NaN while the window holds no
observation. -/
def rollingMeanSeries (w : Nat) (xs : List (Option ℚ)) : List (Option ℚ) :=
  (List.range xs.length).map fun i =>
    let win := windowAt w xs i
    if win.isEmpty then Option.none else some (WeatherFeatures.mean win)

/-- The square of `Series.rolling(w, min_periods=1).std()` (`ddof = 1`): NaN
below two observations. -/
def rollingVarSeries (w : Nat) (xs : List (Option ℚ)) : List (Option ℚ) :=
  (List.range xs.length).map fun i => WeatherFeatures.sampleVar (windowAt w xs i)

/-- The `traffic` series of one destination's group, in frame order (the
frame is sorted, so in date order). -/
def groupSeries (S : List ARow) (d : String) : List (Option ℚ) :=
  (S.filter fun r => r.destination = d).map (·.traffic)

/-- Position of row `i` inside its `groupby('destination')` group. -/
def groupIdx (S : List ARow) (i : Nat) (d : String) : Nat :=
  ((S.take i).filter fun r => r.destination = d).length

/-- Column `traffic_lag_{k}m` (lines 71–73):
`df.groupby('destination')['traffic'].shift(k)` scattered back to frame
positions. -/
def lagCol (S : List ARow) (k : Nat) : List (Option ℚ) :=
  S.mapIdx fun i r =>
    (shiftSeries k (groupSeries S r.destination)).getD (groupIdx S i r.destination) Option.none

/-- Column `traffic_rolling_mean_{w}m` (lines 78–80):
`transform(lambda x: x.shift(1).rolling(w, min_periods=1).mean())`. -/
def rollMeanCol (S : List ARow) (w : Nat) : List (Option ℚ) :=
  S.mapIdx fun i r =>
    let g := groupSeries S r.destination
    (rollingMeanSeries w (shiftSeries 1 g)).getD (groupIdx S i r.destination) Option.none

/-- The square of column `traffic_rolling_std_{w}m` (lines 81–83). -/
def rollVarCol (S : List ARow) (w : Nat) : List (Option ℚ) :=
  S.mapIdx fun i r =>
    let g := groupSeries S r.destination
    (rollingVarSeries w (shiftSeries 1 g)).getD (groupIdx S i r.destination) Option.none

/-- The sorted frame paired with its `traffic_lag_12m` column. -/
def dfWithLag12 (df : List ARow) : List (ARow × Option ℚ) :=
  (sortRows df).zip (lagCol (sortRows df) 12)

/-- `df_model = df.dropna(subset=['traffic_lag_12m'])` (line 184). -/
def df_model (df : List ARow) : List (ARow × Option ℚ) :=
  (dfWithLag12 df).filter fun p => p.2.isSome

/-- `split_date = df_model['date_parsed'].max() - pd.DateOffset(months=6)`
(line 188). -/
def split_date (df : List ARow) : Timestamp :=
  subMonths (listMaxTs ((df_model df).map (·.1.date_parsed))) 6

/-- `train_df = df_model[df_model['date_parsed'] <= split_date]` (line 189). -/
def train_df (df : List ARow) : List (ARow × Option ℚ) :=
  (df_model df).filter fun p => tsLeB p.1.date_parsed (split_date df)

/-- `test_df = df_model[df_model['date_parsed'] > split_date]` (line 190). -/
def test_df (df : List ARow) : List (ARow × Option ℚ) :=
  (df_model df).filter fun p => !tsLeB p.1.date_parsed (split_date df)

end Analysis

namespace Scrapers

/-- The HTTP environment of one page fetch: `resp n` is the text obtained at
attempt `n`, or `Option.none` when that attempt raises `RequestException`. -/
def Resp := Nat → Option String

/-- The retry loop of `AccommodationScraper.fetch_html` (lines 73–87 of
`scraper_accommodation.py`; `scraper_entertainment.py` and
`scraper_healthcare.py` carry the identical loop): `remaining` counts the
attempts left, `attempt` is the Python loop variable.  The result pairs the
returned string with the list of backoff sleeps (`2 ** attempt` seconds)
performed between attempts. -/
def fetchGo (resp : Resp) : Nat → Nat → String × List Nat
  | 0, _ => ("", [])
  | r + 1, attempt =>
    match resp attempt with
    | some t => (t, [])
    | Option.none =>
      if r = 0 then ("", [])
      else
        let p := fetchGo resp r (attempt + 1)
        (p.1, 2 ^ attempt :: p.2)

/-- `fetch_html(page, max_retries=3)` of the accommodation scraper. -/
def fetch_html (resp : Resp) : String × List Nat := fetchGo resp 3 0

/-- `get_html` of `scraper_tourism.py` (lines 13–21): one attempt inside
`try/except`, empty string on failure — no retry loop. -/
def get_html (resp : Resp) : String := (resp 0).getD ""

/-- `fetch_html` of `vietnam_tourism_catalog_scraper.py` (lines 56–63): no
`try`, so a failing request propagates (`Except.error`). -/
def catalogFetchHtml (resp : Resp) : Except Unit String :=
  match resp 0 with
  | some t => Except.ok t
  | Option.none => Except.error ()

/-- The pagination loop of `scrape` in `scraper_tourism.py` (lines 60–87):
state is (page, consecutive-empty counter, collected items); the items a page
yields are `items page` (a failed fetch parses to `[]`).  `fuel` bounds the
number of iterations; `Option.none` means the loop was still running. -/
def scrapeGoT {α : Type} (items : Nat → List α) :
    Nat → Nat → Nat → List α → Option (List α)
  | 0, _, _, _ => Option.none
  | fuel + 1, page, empty, acc =>
    let its := items page
    if its.isEmpty then
      if empty + 1 ≥ 2 then some acc
      else scrapeGoT items fuel (page + 1) (empty + 1) acc
    else scrapeGoT items fuel (page + 1) 0 (acc ++ its)

/-- `scrape` of `scraper_tourism.py` starts at page 1 with counter 0; the
returned list is what the final `save_csv(all_items, …)` writes. -/
def scrapeTourism {α : Type} (items : Nat → List α) (fuel : Nat) : Option (List α) :=
  scrapeGoT items fuel 1 0 []

/-- The pagination loop of `AccommodationScraper.scrape` (lines 166–194):
as the tourism loop, but first `if self.max_pages and page - self.start_page
>= self.max_pages: break` (Python truthiness: `None` and `0` disable the
bound). -/
def scrapeGoA {α : Type} (items : Nat → List α) (maxPages : Option Nat) (startPage : Nat) :
    Nat → Nat → Nat → List α → Option (List α)
  | 0, _, _, _ => Option.none
  | fuel + 1, page, empty, acc =>
    if (match maxPages with
        | some m => decide (m ≠ 0 ∧ m ≤ page - startPage)
        | Option.none => false) then some acc
    else
      let its := items page
      if its.isEmpty then
        if empty + 1 ≥ 2 then some acc
        else scrapeGoA items maxPages startPage fuel (page + 1) (empty + 1) acc
      else scrapeGoA items maxPages startPage fuel (page + 1) 0 (acc ++ its)

/-- `scrape` of the accommodation scraper; the returned list is what the
final `_save_csv` writes. -/
def scrapeAccommodation {α : Type} (items : Nat → List α) (maxPages : Option Nat)
    (startPage : Nat) (fuel : Nat) : Option (List α) :=
  scrapeGoA items maxPages startPage fuel startPage 0 []

end Scrapers

namespace ScriptIO

/-- CSV/file paths a script reads and writes, transcribed from its source
(path roots are kept as each script spells them; a same-path comparison is
always within one script, so the root spelling is immaterial). -/
structure Script where
  name : String
  reads : List String
  writes : List String
deriving DecidableEq

/-- Input file names of `FILE_CONFIGS` in `batch_normalize_provinces.py`
(lines 182–211), including the weather files for 2018–2025. -/
def batchNormalizeNames : List String :=
  ["vietnam_accommodation.csv",
   "vietnam_entertainment.csv",
   "vietnam_healthcare.csv",
   "vietnam_restaurants.csv",
   "vietnam_shops.csv",
   "vietnam_festivals.csv",
   "vietnam_youtube_province_aggregates.csv",
   "vietnam_youtube_province_videos.csv",
   "keyword_mapping.csv",
   "vietnam_regions_with_distances.csv",
   "vietnam_population.csv",
   "vietnam_grdp_by_province.csv",
   "vietnam_area_population.csv",
   "vietnam_weather_tourism_2018.csv",
   "vietnam_weather_tourism_2019.csv",
   "vietnam_weather_tourism_2020.csv",
   "vietnam_weather_tourism_2021.csv",
   "vietnam_weather_tourism_2022.csv",
   "vietnam_weather_tourism_2023.csv",
   "vietnam_weather_tourism_2024.csv",
   "vietnam_weather_tourism_2025.csv"]

/-- `code/batch_normalize_provinces.py`: reads `data/<name>`, writes
`data/normalized/<name>` plus the summary. -/
def batchNormalizeScript : Script :=
  ⟨"code/batch_normalize_provinces.py",
   "data/vietnam_province_name_mapping.csv" :: batchNormalizeNames.map (fun n => "data/" ++ n),
   batchNormalizeNames.map (fun n => "data/normalized/" ++ n) ++
     ["data/normalized/_summary_normalization.csv"]⟩

/-- `code/create_weather_extended_features.py` (lines 20, 77). -/
def createWeatherScript : Script :=
  ⟨"code/create_weather_extended_features.py",
   ["../data/vietnam_weather_by_province_2011_2025.csv"],
   ["../data/normalized/vietnam_weather_monthly_extended.csv"]⟩

/-- `code/merge_tourism_data_extended.py` (lines 30–80, 302). -/
def mergeScript : Script :=
  ⟨"code/merge_tourism_data_extended.py",
   ["../data/normalized/vietnam_destinations_normalized.csv",
   "../data/normalized/keyword_mapping_normalized.csv",
   "../data/normalized/vietnam_weather_monthly_extended.csv",
   "../data/normalized/vietnam_seasonal_destinations_strong.csv",
   "../data/normalized/destinations_statistics.csv",
   "../data/normalized/vietnam_regions_with_distances.csv",
   "../data/normalized/vietnam_accommodation.csv",
   "../data/normalized/vietnam_restaurants.csv",
   "../data/normalized/vietnam_entertainment.csv",
   "../data/normalized/vietnam_healthcare.csv",
   "../data/normalized/vietnam_shops.csv",
   "../data/normalized/vietnam_youtube_province_aggregates.csv",
   "../data/normalized/vietnam_grdp_by_province.csv",
   "../data/normalized/vietnam_area_population.csv"],
   ["../data/normalized/merged_tourism_data_extended.csv"]⟩

/-- `analysis/tourism_analysis_extended.py` (lines 29, 285, 338). -/
def analysisScript : Script :=
  ⟨"analysis/tourism_analysis_extended.py",
   ["data/normalized/merged_tourism_data_extended.csv"],
   ["models/traffic_prediction_extended.lgb",
    "data/predictions/traffic_predictions_extended.csv"]⟩

/-- `analysis_filtered/tourism_analysis_filtered.py` (lines 18, 295). -/
def analysisFilteredScript : Script :=
  ⟨"analysis_filtered/tourism_analysis_filtered.py",
   ["../data/normalized/merged_tourism_data_extended.csv"],
   ["prediction_results_filtered.csv"]⟩

/-- `app.py` (lines 57–62): the dashboard only reads. -/
def appScript : Script :=
  ⟨"app.py",
   ["data/normalized/merged_tourism_data_extended.csv",
    "data/normalized/vietnam_weather_monthly_extended.csv",
    "data/predictions/traffic_predictions_extended.csv"],
   []⟩

/-- `scraper_tourism.py` (default checkpoint file, line 60). -/
def scraperTourismScript : Script := ⟨"scraper_tourism.py", [], ["tourism.csv"]⟩

/-- `scraper_accommodation.py` (default `--output`). -/
def scraperAccommodationScript : Script :=
  ⟨"scraper_accommodation.py", [], ["accommodation.csv"]⟩

/-- `scraper_entertainment.py` (default `--output`). -/
def scraperEntertainmentScript : Script :=
  ⟨"scraper_entertainment.py", [], ["entertainment.csv"]⟩

/-- `scraper_healthcare.py` (default `--output`). -/
def scraperHealthcareScript : Script :=
  ⟨"scraper_healthcare.py", [], ["healthcare.csv"]⟩

/-- `vietnam_tourism_catalog_scraper.py` (default `--output`). -/
def catalogScraperScript : Script :=
  ⟨"vietnam_tourism_catalog_scraper.py", [],
   ["tourism_destinations_names_addresses.csv"]⟩

/-- `gg trends/keyword_normalizer.py` (default `--input`/`--output`). -/
def keywordNormalizerScript : Script :=
  ⟨"gg trends/keyword_normalizer.py", ["../tourism.csv"], ["keyword_mapping.csv"]⟩

/-- `convert_addresses_vnhub.py` (default `--input`/`--output` and the
partial checkpoint). -/
def convertAddressesScript : Script :=
  ⟨"convert_addresses_vnhub.py",
   ["tourism_destinations_province_only_fixed.csv"],
   ["tourism_destinations_province_only_converted.csv",
    "tourism_destinations_province_only_converted.partial.csv"]⟩

/-- `convert_lunar_to_gregorian_historical.py` (lines 80, 108). -/
def convertLunarScript : Script :=
  ⟨"convert_lunar_to_gregorian_historical.py",
   ["/workspaces/pokemon/data/vietnam_festivals.csv"],
   ["/workspaces/pokemon/data/vietnam_festivals_with_years_2018_2024.csv"]⟩

/-- `convert_to_month_only.py` (lines 110, 146). -/
def convertToMonthScript : Script :=
  ⟨"convert_to_month_only.py",
   ["/workspaces/pokemon/data/vietnam_festivals_with_years_2018_2024.csv"],
   ["/workspaces/pokemon/data/vietnam_festivals.csv"]⟩

/-- `calculate_province_distances.py` (default arguments, lines 80–81). -/
def provinceDistancesScript : Script :=
  ⟨"calculate_province_distances.py",
   ["cacKhuVuc/cacKhuVucVietNam.csv"],
   ["cacKhuVuc/cacKhuVucVietNam_with_distances.csv"]⟩

/-- `weather/weather.py` (lines 19, 126). -/
def weather2018Script : Script :=
  ⟨"weather/weather.py",
   ["destinations_location.csv"],
   ["thoi_tiet_danlam_thangcanh_2018.csv"]⟩

/-- `weather/get_weather_by_province_2011_2025.py` (lines 19, 146). -/
def weatherByProvinceScript : Script :=
  ⟨"weather/get_weather_by_province_2011_2025.py",
   ["data/vietnam_regions_with_distances.csv"],
   ["data/vietnam_weather_by_province_2011_2025.csv"]⟩

/-- `hastag/youtube_province_hashtags.py`: reads the province dataset via
`province_lookup.DATASET_PATH`, writes the counts CSV (default `--output`). -/
def youtubeProvinceHashtagsScript : Script :=
  ⟨"hastag/youtube_province_hashtags.py",
   ["cacKhuVuc/cacKhuVucVietNam.csv"],
   ["youtube_province_counts.csv"]⟩

/-- `trash/analyze_trends_data.py` (default keywords file; writes lines
189, 222; the per-group raw files under `dest_trends_raw/` are read-only
here). -/
def analyzeTrendsScript : Script :=
  ⟨"trash/analyze_trends_data.py",
   ["keyword_mapping.csv", "dest_trends_raw/dest_group_000.csv"],
   ["destination_monthly_trends.csv", "destination_summary_stats.csv"]⟩

/-- Scripts whose outputs all go to paths distinct from every path they
read. -/
def freshOutputScripts : List Script :=
  [batchNormalizeScript, createWeatherScript, mergeScript, analysisScript,
   analysisFilteredScript, appScript, scraperTourismScript,
   scraperAccommodationScript, scraperEntertainmentScript,
   scraperHealthcareScript, catalogScraperScript, keywordNormalizerScript,
   convertAddressesScript, convertLunarScript, convertToMonthScript,
   provinceDistancesScript, weather2018Script, weatherByProvinceScript,
   youtubeProvinceHashtagsScript, analyzeTrendsScript]

/-- The five files `clean_provinces.py` rewrites in place (lines 30–36). -/
def cleanProvincesFiles : List String :=
  ["/workspaces/pokemon/data/vietnam_accommodation.csv",
   "/workspaces/pokemon/data/vietnam_entertainment.csv",
   "/workspaces/pokemon/data/vietnam_healthcare.csv",
   "/workspaces/pokemon/data/vietnam_restaurants.csv",
   "/workspaces/pokemon/data/vietnam_shops.csv"]

/-- `clean_provinces.py`: reads the mapping and the five files, writes the
cleaned frames back to the very same five paths (lines 45, 88–90). -/
def cleanProvincesScript : Script :=
  ⟨"clean_provinces.py",
   "/workspaces/pokemon/data/vietnam_province_name_mapping.csv" :: cleanProvincesFiles,
   cleanProvincesFiles⟩

/-- `standardize_provinces.py`: reads and rewrites the same two paths
(lines 26–37). -/
def standardizeProvincesScript : Script :=
  ⟨"standardize_provinces.py",
   ["/workspaces/pokemon/data/youtube_province_videos.csv",
    "/workspaces/pokemon/data/cacKhuVucVietNam_with_distances.csv"],
   ["/workspaces/pokemon/data/youtube_province_videos.csv",
    "/workspaces/pokemon/data/cacKhuVucVietNam_with_distances.csv"]⟩

/-- `apply_mapping.py`: reads the mapping and the five files, writes back to
the same five paths (lines 27, 60). -/
def applyMappingScript : Script :=
  ⟨"apply_mapping.py",
   "/workspaces/pokemon/data/vietnam_province_name_mapping.csv" :: cleanProvincesFiles,
   cleanProvincesFiles⟩

/-- `mapping_script.py`: rewrites two of the three files it maps in place
(lines 26/36, 42/52). -/
def mappingScriptScript : Script :=
  ⟨"mapping_script.py",
   ["/workspaces/pokemon/data/mapping.csv",
    "/workspaces/pokemon/data/youtube_province_videos.csv",
    "/workspaces/pokemon/data/cacKhuVucVietNam_with_distances.csv",
    "/workspaces/pokemon/data/complete_destinations_normalized.csv"],
   ["/workspaces/pokemon/data/youtube_province_videos.csv",
    "/workspaces/pokemon/data/cacKhuVucVietNam_with_distances.csv"]⟩

/-- `weather/get_weather_2025_extend.py`: appends 2025 rows into the
normalized weather file it read (lines 22, 108, 115). -/
def weather2025ExtendScript : Script :=
  ⟨"weather/get_weather_2025_extend.py",
   ["data/vietnam_regions_with_distances.csv",
    "data/normalized/vietnam_weather_2011_2025.csv"],
   ["data/normalized/vietnam_weather_2011_2025.csv"]⟩

/-- `weather/get_weather_2025_only.py`: appends 2025 rows into the daily
weather file it read (lines 23, 119, 126). -/
def weather2025OnlyScript : Script :=
  ⟨"weather/get_weather_2025_only.py",
   ["data/vietnam_regions_with_distances.csv",
    "data/vietnam_weather_by_province_2011_2025.csv"],
   ["data/vietnam_weather_by_province_2011_2025.csv"]⟩

/-- Per-group checkpoint path `dest_trends_raw/dest_group_{idx:03d}.csv` of
the Google-Trends fetchers. -/
def destGroupPath (idx : Nat) : String :=
  let s := toString idx
  "dest_trends_raw/dest_group_" ++
    ⟨List.replicate (3 - s.length) '0'⟩ ++ s ++ ".csv"

/-- `gg trends/fetch_trends_data.py` for a given set of keyword groups: each
group checkpoint is read for resume (line 100) and written back (line 133)
at the same path. -/
def fetchTrendsScript (groups : List Nat) : Script :=
  ⟨"gg trends/fetch_trends_data.py",
   "../tourism_destinations_province_only_fixed.csv" :: groups.map destGroupPath,
   groups.map destGroupPath ++ ["dest_trends_raw/failed_groups.txt"]⟩

/-- `trash/fetch_trends_data.py`: same structure as the live fetcher. -/
def trashFetchTrendsScript (groups : List Nat) : Script :=
  ⟨"trash/fetch_trends_data.py",
   "../tourism_destinations_province_only_fixed.csv" :: groups.map destGroupPath,
   groups.map destGroupPath ++ ["dest_trends_raw/failed_groups.txt"]⟩

/-- `trash/destination_monthly_trends.py`: checkpoints in place plus two
summary CSVs. -/
def trashMonthlyTrendsScript (groups : List Nat) : Script :=
  ⟨"trash/destination_monthly_trends.py",
   "../tourism_destinations_province_only_fixed.csv" :: groups.map destGroupPath,
   groups.map destGroupPath ++
     ["destination_monthly_trends.csv", "destination_summary_stats.csv"]⟩

/-- The scripts that rewrite at least one of their input CSVs in place
(with one checkpoint group standing in for the fetchers). -/
def inPlaceScripts : List Script :=
  [cleanProvincesScript, standardizeProvincesScript, applyMappingScript,
   mappingScriptScript, weather2025ExtendScript, weather2025OnlyScript,
   fetchTrendsScript [0], trashFetchTrendsScript [0], trashMonthlyTrendsScript [0]]

end ScriptIO

namespace PipelineAux

theorem takeWhile_all_append {α} (p : α → Bool) (l1 l2 : List α) (x : α)
    (h : ∀ a ∈ l1, p a = true) (hx : p x = false) :
    (l1 ++ x :: l2).takeWhile p = l1 ∧ (l1 ++ x :: l2).dropWhile p = x :: l2 := by
  induction l1 with
  | nil => simp [List.takeWhile_cons, List.dropWhile_cons, hx]
  | cons a as ih =>
    have pa : p a = true := h a (List.mem_cons_self a as)
    have ⟨iht, ihd⟩ := ih fun b hb => h b (List.mem_cons_of_mem a hb)
    simp [List.takeWhile_cons, List.dropWhile_cons, pa, iht, ihd]

theorem get?_mapIdx {α β} (l : List α) (f : Nat → α → β) (i : Nat) :
    (l.mapIdx f)[i]? = (l[i]?).map (f i) := by
  by_cases h : i < l.length
  · have h' : i < (l.mapIdx f).length := by simpa using h
    rw [List.getElem?_eq_getElem h', List.getElem?_eq_getElem h]
    have := List.get_mapIdx l f i h
    simp only [List.get_eq_getElem] at this
    simp [this]
  · have h1 : (l.mapIdx f).length ≤ i := by simp at h ⊢; omega
    rw [List.getElem?_eq_none h1, List.getElem?_eq_none (by omega : l.length ≤ i)]
    rfl

end PipelineAux

namespace MergeExtended

theorem rsplitOnce_append (label y : String) (hy : ' ' ∉ y.data) :
    rsplitOnce (label ++ " " ++ y) = some (label, y) := by
  have hdata : (label ++ " " ++ y).data = label.data ++ ' ' :: y.data := by
    simp [String.data_append]
  have hmem : ' ' ∈ (label ++ " " ++ y).data := by
    rw [hdata]; exact List.mem_append_right _ (List.mem_cons_self _ _)
  have hrev : (label ++ " " ++ y).data.reverse =
      y.data.reverse ++ ' ' :: label.data.reverse := by
    rw [hdata]; simp
  have hall : ∀ a ∈ y.data.reverse, (a != ' ') = true := by
    intro a ha
    have hm : a ∈ y.data := List.mem_reverse.mp ha
    simp only [bne_iff_ne, ne_eq]
    rintro rfl
    exact hy hm
  have ⟨ht, hd⟩ := PipelineAux.takeWhile_all_append (fun c => c != ' ')
    y.data.reverse label.data.reverse ' ' hall (by simp)
  unfold rsplitOnce
  rw [if_pos (by simp [hmem]), hrev]
  simp only [ht, hd, List.tail_cons, List.reverse_reverse]

/-- C10: `parse_vietnamese_date` maps `"<label> <year>"` to the timestamp
`(year, month, 1)`: the day is always 1, the month comes from the twelve
`thg k` labels, and any unknown label silently falls back to January
(month 1). -/
theorem parse_vietnamese_date_spec (label y : String) (yr : Int)
    (hy : ' ' ∉ y.data) (hyr : pyInt y = some yr) :
    parse_vietnamese_date (label ++ " " ++ y) =
      some ⟨yr, (BatchNormalize.alookup monthsVi label).getD 1, 1⟩
    ∧ (∀ k, k < 13 → 1 ≤ k →
        BatchNormalize.alookup monthsVi ("thg " ++ toString k) = some k)
    ∧ (BatchNormalize.alookup monthsVi label = Option.none →
        (BatchNormalize.alookup monthsVi label).getD 1 = 1) := by
  refine ⟨?_, by decide, fun h => by rw [h]; rfl⟩
  unfold parse_vietnamese_date
  rw [rsplitOnce_append label y hy]
  simp [hyr]

/-- C10 witness: `"thg 7 2019"` parses to 2019-07-01 and an unknown label
parses to January. -/
theorem parse_vietnamese_date_spec_witness :
    parse_vietnamese_date ("thg 7" ++ " " ++ "2019") =
      some ⟨2019, (BatchNormalize.alookup monthsVi "thg 7").getD 1, 1⟩
    ∧ parse_vietnamese_date ("tháng 13" ++ " " ++ "2019") =
      some ⟨2019, (BatchNormalize.alookup monthsVi "tháng 13").getD 1, 1⟩ :=
  ⟨(parse_vietnamese_date_spec "thg 7" "2019" 2019 (by decide) (by decide)).1,
   (parse_vietnamese_date_spec "tháng 13" "2019" 2019 (by decide) (by decide)).1⟩

/-- C3: the infrastructure join of `merge_tourism_data` never happens: after
`reset_index()` the key column of `infra_df` is `province_normalized` (the
rename of `index` matches nothing), so `merged.merge(infra_df, on='province',
how='left')` raises `KeyError`, which the surrounding `except` swallows — no
infrastructure columns are added, against the claim that unmatched rows keep
null infrastructure values. -/
theorem infra_merge_key_mismatch :
    infra_df_columns = "province_normalized" :: infraCountCols
    ∧ "province" ∉ infra_df_columns
    ∧ mergeOnRaisesKeyError "province" mergedColsAtInfraStep infra_df_columns = true := by
  refine ⟨rfl, by decide, by decide⟩

end MergeExtended

namespace ScriptIO

/-- C7 counterexample: `clean_provinces.py` reads
`/workspaces/pokemon/data/vietnam_accommodation.csv` and writes its cleaned
frame back to that very path, so a script does write its output to a CSV
path it reads. -/
theorem clean_provinces_rewrites_input :
    "/workspaces/pokemon/data/vietnam_accommodation.csv" ∈ cleanProvincesScript.reads
    ∧ "/workspaces/pokemon/data/vietnam_accommodation.csv" ∈ cleanProvincesScript.writes := by
  constructor <;> decide

/-- C7 (amended): the transformation pipeline stages — the `code/` scripts,
the analysis scripts, the scrapers, the converters and the dashboard — write
only to paths distinct from every path they read; but the in-place
normalizers (`clean_provinces.py`, `standardize_provinces.py`,
`apply_mapping.py`, `mapping_script.py`), the incremental weather fetchers
(`weather/get_weather_2025_extend.py`, `weather/get_weather_2025_only.py`)
and the Google-Trends fetchers' per-group checkpoints each rewrite at least
one CSV they read at the same path. -/
theorem script_io_reads_writes :
    (∀ s ∈ freshOutputScripts, ∀ p ∈ s.writes, p ∉ s.reads)
    ∧ (∀ s ∈ inPlaceScripts, ∃ p ∈ s.reads, p ∈ s.writes) := by
  constructor <;> decide

end ScriptIO

namespace Scrapers

/-- C8 counterexample: in an HTTP environment whose first attempt fails and
whose second attempt would succeed, `scraper_tourism.get_html` returns the
empty string — it never makes the second attempt — while the accommodation
scraper's `fetch_html` retries and obtains the page; so not every scraper
retries a failed request before giving up. -/
theorem tourism_get_html_no_retry :
    get_html (fun k => if k = 0 then Option.none else some "ok") = ""
    ∧ fetch_html (fun k => if k = 0 then Option.none else some "ok") = ("ok", [1]) := by
  constructor <;> rfl

/-- C8 (amended): the accommodation/entertainment/healthcare scrapers'
`fetch_html` makes at most 3 attempts, sleeping `2 ** attempt` seconds
between consecutive attempts, returns the first successful response text,
and returns `""` when all three attempts fail; the tourism scraper's
`get_html` makes exactly one attempt and returns `""` on failure; the
catalog scraper's `fetch_html` does not catch at all — a failing first
request raises. -/
theorem fetch_retry_spec :
    (∀ resp : Resp, (∀ k, k < 3 → resp k = Option.none) → fetch_html resp = ("", [1, 2]))
    ∧ (∀ (resp : Resp) (t : String), resp 0 = some t → fetch_html resp = (t, []))
    ∧ (∀ (resp : Resp) (t : String), resp 0 = Option.none → resp 1 = some t →
        fetch_html resp = (t, [1]))
    ∧ (∀ (resp : Resp) (t : String), resp 0 = Option.none → resp 1 = Option.none →
        resp 2 = some t → fetch_html resp = (t, [1, 2]))
    ∧ (∀ resp : Resp, get_html resp = (resp 0).getD "")
    ∧ (∀ resp : Resp, resp 0 = Option.none → catalogFetchHtml resp = Except.error ()) := by
  refine ⟨?_, ?_, ?_, ?_, fun _ => rfl, ?_⟩
  · intro resp h
    simp [fetch_html, fetchGo, h 0 (by omega), h 1 (by omega), h 2 (by omega)]
  · intro resp t h
    simp [fetch_html, fetchGo, h]
  · intro resp t h0 h1
    simp [fetch_html, fetchGo, h0, h1]
  · intro resp t h0 h1 h2
    simp [fetch_html, fetchGo, h0, h1, h2]
  · intro resp h
    simp [catalogFetchHtml, h]

/-- C8 witness: the amended behaviour at concrete environments — all-fail,
first-attempt success, and failure-then-success. -/
theorem fetch_retry_spec_witness :
    fetch_html (fun _ => Option.none) = ("", [1, 2])
    ∧ fetch_html (fun _ => some "page") = ("page", [])
    ∧ fetch_html (fun k => if k = 0 then Option.none else some "page") = ("page", [1])
    ∧ get_html (fun _ => some "page") = "page"
    ∧ catalogFetchHtml (fun _ => Option.none) = Except.error () :=
  ⟨fetch_retry_spec.1 _ (fun _ _ => rfl),
   fetch_retry_spec.2.1 _ "page" rfl,
   fetch_retry_spec.2.2.1 _ "page" rfl rfl,
   fetch_retry_spec.2.2.2.2.1 _,
   fetch_retry_spec.2.2.2.2.2 _ rfl⟩

end Scrapers

namespace Analysis

theorem tsLeB_total (a b : MergeExtended.Timestamp) :
    tsLeB a b = true ∨ tsLeB b a = true := by
  simp only [tsLeB, Bool.or_eq_true, Bool.and_eq_true, decide_eq_true_eq]
  omega

theorem tsLeB_refl (a : MergeExtended.Timestamp) : tsLeB a a = true := by
  rcases tsLeB_total a a with h | h <;> exact h

theorem tsLeB_not (a b : MergeExtended.Timestamp) (h : tsLeB a b = false) :
    tsLeB b a = true ∧ a ≠ b := by
  refine ⟨(tsLeB_total a b).resolve_left (by simp [h]), ?_⟩
  rintro rfl
  rw [tsLeB_refl] at h
  cases h

/-- C5: the train/test split is time-based: `split_date` is the latest
`date_parsed` of the modeling rows (the rows with non-null
`traffic_lag_12m`) minus 6 months; every train row's date is `≤ split_date`,
every test row's date is strictly after it, and train and test together are
a permutation of the modeling rows (each row lands in exactly one side). -/
theorem time_split_spec (df : List ARow) :
    split_date df = subMonths (listMaxTs ((df_model df).map (·.1.date_parsed))) 6
    ∧ (∀ p ∈ df_model df, p.2.isSome = true)
    ∧ (∀ p ∈ train_df df, tsLeB p.1.date_parsed (split_date df) = true)
    ∧ (∀ p ∈ test_df df,
        tsLeB (split_date df) p.1.date_parsed = true ∧ p.1.date_parsed ≠ split_date df)
    ∧ (train_df df ++ test_df df).Perm (df_model df) := by
  refine ⟨rfl, ?_, ?_, ?_, ?_⟩
  · intro p hp
    exact (List.mem_filter.mp hp).2
  · intro p hp
    exact (List.mem_filter.mp hp).2
  · intro p hp
    have h := (List.mem_filter.mp hp).2
    simp only [Bool.not_eq_true'] at h
    have := tsLeB_not _ _ h
    exact ⟨this.1, this.2⟩
  · exact List.filter_append_perm _ (df_model df)

/-- C5 witness: a frame with thirteen months of one destination has exactly
one modeling row; it falls on the test side of the split. -/
theorem time_split_spec_witness :
    (⟨⟨"a", ⟨2021, 1, 1⟩, some 1⟩, some 1⟩ : ARow × Option ℚ) ∈
      test_df (((List.range 12).map fun m => ⟨"a", ⟨2020, m + 1, 1⟩, some 1⟩) ++
        [⟨"a", ⟨2021, 1, 1⟩, some 1⟩])
    ∧ (tsLeB
        (split_date (((List.range 12).map fun m => ⟨"a", ⟨2020, m + 1, 1⟩, some 1⟩) ++
          [⟨"a", ⟨2021, 1, 1⟩, some 1⟩]))
        (⟨2021, 1, 1⟩ : MergeExtended.Timestamp) = true) := by
  refine ⟨by decide, ?_⟩
  have h := (time_split_spec (((List.range 12).map fun m => ⟨"a", ⟨2020, m + 1, 1⟩, some 1⟩) ++
    [⟨"a", ⟨2021, 1, 1⟩, some 1⟩])).2.2.2.1 ⟨⟨"a", ⟨2021, 1, 1⟩, some 1⟩, some 1⟩ (by decide)
  exact h.1

end Analysis

namespace WeatherFeatures

/-- C4: every row of the monthly aggregate describes exactly the daily rows
of its (province, year, month) group: `temp_mean`/`temp_min`/`temp_max` are
the mean/min/max of the daily `temp_avg` values, `temp_std` their sample
standard deviation, `rainfall_total` their sum, `rainfall_max_daily` the
largest daily rainfall, `rainfall_days` the number of days with rainfall
strictly above 0, and `temp_amplitude = temp_max - temp_min`. -/
theorem create_weather_spec (daily : List DailyRow) (r : MonthlyRow)
    (hr : r ∈ create_weather_extended_features daily) :
    let g := daily.filter fun d => gkey d = (r.province, r.year, r.month)
    let temps := g.map (·.temp_avg)
    let rains := g.map (·.rainfall)
    g ≠ []
    ∧ r.temp_mean = mean temps
    ∧ r.temp_min = listMin temps
    ∧ r.temp_max = listMax temps
    ∧ r.temp_std = (sampleVar temps).map Real.sqrt
    ∧ r.rainfall_total = rains.sum
    ∧ r.rainfall_max_daily = listMax rains
    ∧ r.rainfall_days = (rains.filter fun x => 0 < x).length
    ∧ r.temp_amplitude = r.temp_max - r.temp_min := by
  obtain ⟨k, hk, rfl⟩ := List.mem_map.mp hr
  have hkey : ((k.1, k.2.1, k.2.2) : String × Int × Nat) = k := rfl
  have hkd : k ∈ daily.map gkey := by
    have h1 := (List.perm_insertionSort
      (fun a b => gkeyLeB a b = true) (daily.map gkey).dedup).mem_iff.mp hk
    exact List.mem_dedup.mp h1
  obtain ⟨d, hd, hgd⟩ := List.mem_map.mp hkd
  refine ⟨?_, rfl, rfl, rfl, rfl, rfl, rfl, rfl, rfl⟩
  intro hnil
  have hdm : d ∈ daily.filter fun x => gkey x = k := by
    simp [List.mem_filter, hd, hgd]
  rw [show (daily.filter fun x => gkey x = k) = [] from hnil] at hdm
  exact (List.not_mem_nil d) hdm

/-- C4 witness: a two-day group aggregates to mean 21, min 20, max 22,
amplitude 2, variance 2, rainfall total 5, max 5, one rainy day. -/
theorem create_weather_spec_witness :
    (⟨"An Giang", ⟨2020, 1, 1⟩, 2020, 1, 21, 20, 22, 2, some 2, 5, 5, 5/2, 1, 10, 105⟩ :
        MonthlyRow) ∈
      create_weather_extended_features
        [⟨"An Giang", ⟨2020, 1, 5⟩, 20, 0, 10, 105⟩,
         ⟨"An Giang", ⟨2020, 1, 6⟩, 22, 5, 10, 105⟩]
    ∧ (⟨"An Giang", ⟨2020, 1, 1⟩, 2020, 1, 21, 20, 22, 2, some 2, 5, 5, 5/2, 1, 10, 105⟩ :
        MonthlyRow).temp_mean =
      mean (([⟨"An Giang", ⟨2020, 1, 5⟩, 20, 0, 10, 105⟩,
         ⟨"An Giang", ⟨2020, 1, 6⟩, 22, 5, 10, 105⟩].filter
          fun d => gkey d = ("An Giang", 2020, 1)).map (·.temp_avg)) := by
  have hEq : create_weather_extended_features
        [⟨"An Giang", ⟨2020, 1, 5⟩, 20, 0, 10, 105⟩,
         ⟨"An Giang", ⟨2020, 1, 6⟩, 22, 5, 10, 105⟩] =
      [⟨"An Giang", ⟨2020, 1, 1⟩, 2020, 1, 21, 20, 22, 2, some 2, 5, 5, 5/2, 1, 10, 105⟩] := by
    simp [create_weather_extended_features, gkey, List.insertionSort, List.orderedInsert,
          mean, sampleVar, listMin, listMax, List.filter]
    norm_num
  have hMem : (⟨"An Giang", ⟨2020, 1, 1⟩, 2020, 1, 21, 20, 22, 2, some 2, 5, 5, 5/2, 1, 10,
      105⟩ : MonthlyRow) ∈
      create_weather_extended_features
        [⟨"An Giang", ⟨2020, 1, 5⟩, 20, 0, 10, 105⟩,
         ⟨"An Giang", ⟨2020, 1, 6⟩, 22, 5, 10, 105⟩] := by
    rw [hEq]
    exact List.mem_singleton.mpr rfl
  exact ⟨hMem, (create_weather_spec _ _ hMem).2.1⟩

end WeatherFeatures

namespace Scrapers

theorem scrapeGoT_char {α : Type} (items : Nat → List α) (P : Nat) (hP1 : 1 ≤ P)
    (hPe : items P = []) (hPe1 : items (P + 1) = [])
    (hmin : ∀ q, 1 ≤ q → q < P → items q = [] → items (q + 1) ≠ []) :
    ∀ fuel page empty acc,
      1 ≤ page → page ≤ P + 1 →
      (empty = 1 → 2 ≤ page ∧ items (page - 1) = []) →
      (empty = 0 → page = 1 ∨ (2 ≤ page ∧ items (page - 1) ≠ [])) →
      (empty = 0 ∨ empty = 1) →
      P + 2 - page ≤ fuel →
      scrapeGoT items fuel page empty acc =
        some (acc ++ (List.range' page (P + 2 - page)).flatMap items) := by
  intro fuel
  induction fuel with
  | zero => intro page empty acc h1 h2 _ _ _ hf; omega
  | succ n ih =>
    intro page empty acc h1 h2 hemp1 hemp0 hemp01 hf
    simp only [scrapeGoT]
    by_cases hie : (items page).isEmpty
    · have hpe : items page = [] := List.isEmpty_iff.mp hie
      rw [if_pos hie]
      rcases hemp01 with rfl | rfl
      · rw [if_neg (by omega)]
        have hple : page ≤ P := by
          rcases hemp0 rfl with rfl | ⟨hp2, hprev⟩
          · omega
          · by_contra hgt
            have : page = P + 1 := by omega
            exact hprev (this ▸ hPe)
        have hrec := ih (page + 1) 1 acc (by omega) (by omega)
          (fun _ => ⟨by omega, by simpa using hpe⟩)
          (by omega) (by omega) (by omega)
        rw [hrec]
        have hn : P + 2 - page = (P + 2 - (page + 1)) + 1 := by omega
        rw [hn, List.range'_succ, List.flatMap_cons, hpe]
        simp
      · rw [if_pos (by omega)]
        have hpage : page = P + 1 := by
          obtain ⟨hp2, hprev⟩ := hemp1 rfl
          by_contra hne
          have hlt : page - 1 < P := by omega
          exact hmin (page - 1) (by omega) hlt hprev
            (by have : page - 1 + 1 = page := by omega
                rw [this]; exact hpe)
        subst hpage
        have : P + 2 - (P + 1) = 1 := by omega
        rw [this]
        simp [List.range', hPe1]
    · have hpe : items page ≠ [] := fun h => hie (by simp [h])
      rw [if_neg hie]
      have hple : page ≤ P := by
        by_contra hgt
        have : page = P + 1 := by omega
        exact hpe (this ▸ hPe1)
      have hrec := ih (page + 1) 0 (acc ++ items page) (by omega) (by omega)
        (by omega)
        (fun _ => Or.inr ⟨by omega, by simpa using hpe⟩)
        (by omega) (by omega)
      rw [hrec]
      have hn : P + 2 - page = (P + 2 - (page + 1)) + 1 := by omega
      rw [hn, List.range'_succ, List.flatMap_cons, List.append_assoc]

theorem scrapeGoA_none_eq {α : Type} (items : Nat → List α) (startPage : Nat) :
    ∀ fuel page empty acc,
      scrapeGoA items Option.none startPage fuel page empty acc =
        scrapeGoT items fuel page empty acc := by
  intro fuel
  induction fuel with
  | zero => intro page empty acc; rfl
  | succ n ih =>
    intro page empty acc
    simp only [scrapeGoA, scrapeGoT, if_neg Bool.false_ne_true]
    by_cases hie : (items page).isEmpty
    · rw [if_pos hie, if_pos hie]
      by_cases h2 : empty + 1 ≥ 2
      · rw [if_pos h2, if_pos h2]
      · rw [if_neg h2, if_neg h2, ih]
    · rw [if_neg hie, if_neg hie, ih]

theorem scrapeGoA_bounded {α : Type} (items : Nat → List α) (m startPage : Nat)
    (hm : 1 ≤ m) (hne : ∀ q, q < m → items (startPage + q) ≠ []) :
    ∀ fuel k acc, k ≤ m → m - k < fuel →
      scrapeGoA items (some m) startPage fuel (startPage + k) 0 acc =
        some (acc ++ (List.range' (startPage + k) (m - k)).flatMap items) := by
  intro fuel
  induction fuel with
  | zero => intro k acc hk hf; omega
  | succ n ih =>
    intro k acc hk hf
    simp only [scrapeGoA]
    have hsub : startPage + k - startPage = k := by omega
    by_cases hkm : k = m
    · subst hkm
      rw [if_pos (by simp [hsub]; omega)]
      simp
    · rw [if_neg (by simp [hsub]; omega)]
      have hne' : items (startPage + k) ≠ [] := hne k (by omega)
      rw [if_neg (fun h => hne' (List.isEmpty_iff.mp h))]
      have hrec := ih (k + 1) (acc ++ items (startPage + k))
        (by omega) (by omega)
      rw [show startPage + k + 1 = startPage + (k + 1) by omega, hrec]
      have hn : m - k = (m - (k + 1)) + 1 := by omega
      rw [hn, List.range'_succ, List.flatMap_cons, List.append_assoc,
        show startPage + (k + 1) = startPage + k + 1 by omega]

/-- C9: under the precondition that every page from some `N` on parses to no
items, both pagination loops terminate; the tourism loop (and the
accommodation loop without `max_pages`) stops exactly at the first pair of
consecutive empty pages, returning every item of every page visited (the
list the final `save_csv` writes); with `max_pages = m` and `m` non-empty
pages the accommodation loop stops at the page bound and returns the items
of those `m` pages. -/
theorem scrape_pagination_spec {α : Type} (items : Nat → List α) (N : Nat)
    (hN1 : 1 ≤ N) (hN : ∀ p, N ≤ p → items p = []) :
    (∃ P, 1 ≤ P ∧ items P = [] ∧ items (P + 1) = []
      ∧ (∀ q, 1 ≤ q → q < P → items q = [] → items (q + 1) ≠ [])
      ∧ scrapeTourism items (N + 2) = some ((List.range' 1 (P + 1)).flatMap items)
      ∧ scrapeAccommodation items Option.none 1 (N + 2) =
          some ((List.range' 1 (P + 1)).flatMap items))
    ∧ (∀ m startPage, 1 ≤ m → (∀ q, q < m → items (startPage + q) ≠ []) →
        scrapeAccommodation items (some m) startPage (m + 1) =
          some ((List.range' startPage m).flatMap items)) := by
  constructor
  · have hex : ∃ q, 1 ≤ q ∧ (items q).isEmpty = true ∧ (items (q + 1)).isEmpty = true :=
      ⟨N, hN1, by simp [hN N (by omega)], by simp [hN (N + 1) (by omega)]⟩
    set P := Nat.find hex with hPdef
    obtain ⟨hP1, hPiso, hPiso1⟩ := Nat.find_spec hex
    have hPe : items P = [] := List.isEmpty_iff.mp hPiso
    have hPe1 : items (P + 1) = [] := List.isEmpty_iff.mp hPiso1
    have hPle : P ≤ N := Nat.find_le ⟨hN1, by simp [hN N (by omega)],
      by simp [hN (N + 1) (by omega)]⟩
    have hmin : ∀ q, 1 ≤ q → q < P → items q = [] → items (q + 1) ≠ [] := by
      intro q hq1 hqP hqe hqe1
      exact Nat.find_min hex hqP ⟨hq1, by simp [hqe], by simp [hqe1]⟩
    have hchar := scrapeGoT_char items P hP1 hPe hPe1 hmin (N + 2) 1 0 []
      (by omega) (by omega) (by omega) (fun _ => Or.inl rfl) (by omega) (by omega)
    refine ⟨P, hP1, hPe, hPe1, hmin, ?_, ?_⟩
    · unfold scrapeTourism
      rw [hchar]
      have : P + 2 - 1 = P + 1 := by omega
      rw [this, List.nil_append]
    · unfold scrapeAccommodation
      rw [scrapeGoA_none_eq, hchar]
      have : P + 2 - 1 = P + 1 := by omega
      rw [this, List.nil_append]
  · intro m startPage hm hne
    unfold scrapeAccommodation
    have := scrapeGoA_bounded items m startPage hm hne (m + 1) 0 [] (by omega) (by omega)
    rw [show startPage + 0 = startPage by omega] at this
    rw [this, show m - 0 = m by omega, List.nil_append]

/-- C9 witness: with pages 1 and 2 non-empty and everything from page 3 on
empty, the tourism loop returns both pages' items and stops after the two
consecutive empty pages 3 and 4. -/
theorem scrape_pagination_spec_witness :
    scrapeTourism (fun p => if p = 1 then ["a"] else if p = 2 then ["b"] else []) 5 =
      some ["a", "b"]
    ∧ (∃ P, 1 ≤ P
        ∧ (fun p => if p = 1 then ["a"] else if p = 2 then ["b"] else []) P = []
        ∧ (fun p => if p = 1 then ["a"] else if p = 2 then ["b"] else []) (P + 1) = []
        ∧ (∀ q, 1 ≤ q → q < P →
            (fun p => if p = 1 then ["a"] else if p = 2 then ["b"] else []) q = [] →
            (fun p => if p = 1 then ["a"] else if p = 2 then ["b"] else []) (q + 1) ≠ [])
        ∧ scrapeTourism (fun p => if p = 1 then ["a"] else if p = 2 then ["b"] else [])
            (3 + 2) =
            some ((List.range' 1 (P + 1)).flatMap
              (fun p => if p = 1 then ["a"] else if p = 2 then ["b"] else []))
        ∧ scrapeAccommodation
            (fun p => if p = 1 then ["a"] else if p = 2 then ["b"] else [])
            Option.none 1 (3 + 2) =
            some ((List.range' 1 (P + 1)).flatMap
              (fun p => if p = 1 then ["a"] else if p = 2 then ["b"] else []))) :=
  ⟨by decide,
   (scrape_pagination_spec (fun p => if p = 1 then ["a"] else if p = 2 then ["b"] else [])
      3 (by omega)
      (by intro p hp
          show (if p = 1 then ["a"] else if p = 2 then ["b"] else []) = []
          rw [if_neg (by omega), if_neg (by omega)])).1⟩

end Scrapers

namespace BatchNormalize

theorem alookup_mem_values {α β : Type} [DecidableEq α] (l : List (α × β)) (k : α)
    (v : β) (h : alookup l k = some v) : v ∈ l.map Prod.snd := by
  induction l with
  | nil => cases h
  | cons p ps ih =>
    by_cases hk : p.1 = k
    · rw [alookup, if_pos hk] at h
      simp [← Option.some_inj.mp h]
    · rw [alookup, if_neg hk] at h
      exact List.mem_cons_of_mem _ (ih h)

theorem foldl_phase1_empty (l : List String) :
    ∀ f : SMap, f "" = Option.none →
      (l.foldl (fun f c => let n := normalize c; if n = "" then f else upd f n c) f) "" =
        Option.none := by
  induction l with
  | nil => intro f hf; exact hf
  | cons c cs ih =>
    intro f hf
    simp only [List.foldl_cons]
    apply ih
    by_cases hn : normalize c = ""
    · simpa [hn] using hf
    · show (if normalize c = "" then f else upd f (normalize c) c) "" = Option.none
      rw [if_neg hn, upd, if_neg fun h => hn h.symm]
      exact hf

theorem foldl_phase2_empty (l : List (String × String)) :
    ∀ f : SMap, f "" = Option.none →
      (l.foldl (fun f p =>
        let n := normalize p.1
        if n = "" then f else if (f n).isSome then f else upd f n p.2) f) "" =
        Option.none := by
  induction l with
  | nil => intro f hf; exact hf
  | cons p ps ih =>
    intro f hf
    simp only [List.foldl_cons]
    apply ih
    by_cases hn : normalize p.1 = ""
    · simpa [hn] using hf
    · show (if normalize p.1 = "" then f
          else if (f (normalize p.1)).isSome then f
          else upd f (normalize p.1) p.2) "" = Option.none
      rw [if_neg hn]
      by_cases hs : (f (normalize p.1)).isSome
      · rw [if_pos hs]; exact hf
      · rw [if_neg hs, upd, if_neg fun h => hn h.symm]
        exact hf

theorem foldl_upd_empty (l : List (String × String)) (hl : ∀ p ∈ l, p.1 ≠ "") :
    ∀ f : SMap, f "" = Option.none →
      (l.foldl (fun f p => upd f p.1 p.2) f) "" = Option.none := by
  induction l with
  | nil => intro f hf; exact hf
  | cons p ps ih =>
    intro f hf
    simp only [List.foldl_cons]
    refine ih (fun q hq => hl q (List.mem_cons_of_mem _ hq)) _ ?_
    rw [upd, if_neg fun h => hl p (List.mem_cons_self _ _) h.symm]
    exact hf

set_option maxRecDepth 4000 in
theorem aliasMap_empty (m : List (String × String)) : aliasMap m "" = Option.none := by
  unfold aliasMap
  refine foldl_upd_empty _ (by decide) _ ?_
  unfold aliasPhase2
  refine foldl_phase2_empty _ _ ?_
  unfold aliasPhase1
  exact foldl_phase1_empty _ _ rfl

theorem district_empty : alookup DISTRICT_MAP "" = Option.none := by decide

theorem normalize_empty : normalize "" = "" := rfl

theorem normalizeProvinceStr_eq (m : List (String × String)) (raw : String) :
    normalizeProvinceStr m raw = (specChain m raw).getD "" := by
  unfold normalizeProvinceStr specChain step2Lookup tailLookups
  generalize hrep : repairMojibake raw = rep
  generalize hnr : normalize rep = nr
  generalize hn : normalize raw = n
  generalize hC : alookup CORRUPTED_WEATHER raw = co
  generalize hX : aliasMap m nr = X
  generalize hY : alookup DISTRICT_MAP nr = Y
  generalize hA : aliasMap m n = A
  generalize hB : alookup DISTRICT_MAP n = B
  generalize hP : prefixScan m n PREFIXES = C
  cases co with
  | some v => rfl
  | none =>
    by_cases hg : rep ≠ "" ∧ rep ≠ raw
    · rw [if_pos hg]
      cases X <;> cases Y <;> cases A <;> cases B <;> cases C <;> rfl
    · rw [if_neg hg]
      rcases Decidable.not_and_iff_or_not.mp hg with hre | hre
      · rw [Decidable.not_not] at hre
        subst hre
        have hnr' : nr = "" := by rw [← hnr, normalize_empty]
        subst hnr'
        have hX' : X = Option.none := by rw [← hX, aliasMap_empty]
        have hY' : Y = Option.none := by rw [← hY, district_empty]
        subst hX'
        subst hY'
        cases A <;> cases B <;> cases C <;> rfl
      · rw [Decidable.not_not] at hre
        subst hre
        have hnn : nr = n := by rw [← hnr, hn]
        subst hnn
        have hXA : X = A := by rw [← hX, hA]
        have hYB : Y = B := by rw [← hY, hB]
        subst hXA
        subst hYB
        cases X <;> cases Y <;> cases C <;> rfl

/-- C2: `normalize_province` resolves exactly in the specification's order:
first raw hit in the corrupted-weather table, then mojibake repair followed
by alias- then district-lookup of its normal form, then alias lookup, then
district lookup, then the prefix loop, and `""` when everything misses.  The
source's extra `repaired and repaired != raw` guard never changes the
result: when the repair is the identity the skipped lookups are re-done by
steps (3)–(4), and when the repair ends empty its lookups miss anyway. -/
theorem normalize_province_eq_spec (m : List (String × String)) (inp : RawInput) :
    normalize_province m inp = normalizeProvinceSpec m inp := by
  cases inp with
  | pyNone => rfl
  | pyNaN => rfl
  | pyStr s =>
    show (if pyStrip s = "" then "" else normalizeProvinceStr m (pyStrip s)) =
      (if pyStrip s = "" then "" else (specChain m (pyStrip s)).getD "")
    rw [normalizeProvinceStr_eq]

end BatchNormalize

namespace BatchNormalize

theorem upd_some (f : SMap) (k v x : String) (w : String) (h : upd f k v x = some w) :
    w = v ∨ f x = some w := by
  unfold upd at h
  by_cases hx : x = k
  · rw [if_pos hx] at h
    exact Or.inl (Option.some_inj.mp h).symm
  · rw [if_neg hx] at h
    exact Or.inr h

theorem foldl_phase1_range (S : String → Prop) (l : List String) :
    ∀ f : SMap, (∀ k v, f k = some v → S v) → (∀ c ∈ l, S c) →
    ∀ k v, (l.foldl (fun f c => let n := normalize c; if n = "" then f else upd f n c) f)
      k = some v → S v := by
  induction l with
  | nil => intro f hf _ k v h; exact hf k v h
  | cons c cs ih =>
    intro f hf hl k v h
    simp only [List.foldl_cons] at h
    refine ih _ ?_ (fun b hb => hl b (List.mem_cons_of_mem _ hb)) k v h
    intro k' v' h'
    by_cases hn : normalize c = ""
    · simp only [hn, if_pos] at h'
      exact hf k' v' (by simpa [hn] using h')
    · have h'' : upd f (normalize c) c k' = some v' := by
        simpa [hn] using h'
      rcases upd_some _ _ _ _ _ h'' with rfl | hfk
      · exact hl v' (List.mem_cons_self _ _)
      · exact hf k' v' hfk

theorem foldl_phase2_range (S : String → Prop) (l : List (String × String)) :
    ∀ f : SMap, (∀ k v, f k = some v → S v) → (∀ p ∈ l, S p.2) →
    ∀ k v, (l.foldl (fun f p =>
        let n := normalize p.1
        if n = "" then f else if (f n).isSome then f else upd f n p.2) f) k = some v →
      S v := by
  induction l with
  | nil => intro f hf _ k v h; exact hf k v h
  | cons p ps ih =>
    intro f hf hl k v h
    simp only [List.foldl_cons] at h
    refine ih _ ?_ (fun q hq => hl q (List.mem_cons_of_mem _ hq)) k v h
    intro k' v' h'
    by_cases hn : normalize p.1 = ""
    · exact hf k' v' (by simpa [hn] using h')
    · by_cases hs : (f (normalize p.1)).isSome
      · exact hf k' v' (by simpa [hn, hs] using h')
      · have h'' : upd f (normalize p.1) p.2 k' = some v' := by
          simpa [hn, hs] using h'
        rcases upd_some _ _ _ _ _ h'' with rfl | hfk
        · exact hl p (List.mem_cons_self _ _)
        · exact hf k' v' hfk

theorem foldl_upd_range (S : String → Prop) (l : List (String × String)) :
    ∀ f : SMap, (∀ k v, f k = some v → S v) → (∀ p ∈ l, S p.2) →
    ∀ k v, (l.foldl (fun f p => upd f p.1 p.2) f) k = some v → S v := by
  induction l with
  | nil => intro f hf _ k v h; exact hf k v h
  | cons p ps ih =>
    intro f hf hl k v h
    simp only [List.foldl_cons] at h
    refine ih _ ?_ (fun q hq => hl q (List.mem_cons_of_mem _ hq)) k v h
    intro k' v' h'
    rcases upd_some _ _ _ _ _ h' with rfl | hfk
    · exact hl p (List.mem_cons_self _ _)
    · exact hf k' v' hfk

theorem pyDict_snd_mem (m : List (String × String)) :
    ∀ q ∈ pyDict m, q.2 ∈ m.map Prod.snd := by
  unfold pyDict
  have aux : ∀ (l acc : List (String × String)),
      (∀ q ∈ acc, q.2 ∈ m.map Prod.snd) → (∀ p ∈ l, p.2 ∈ m.map Prod.snd) →
      ∀ q ∈ l.foldl (fun acc p =>
          if (alookup acc p.1).isSome then
            acc.map fun q => if q.1 = p.1 then (q.1, p.2) else q
          else acc ++ [p]) acc, q.2 ∈ m.map Prod.snd := by
    intro l
    induction l with
    | nil => intro acc hacc _ q hq; exact hacc q hq
    | cons p ps ih =>
      intro acc hacc hl q hq
      simp only [List.foldl_cons] at hq
      refine ih _ ?_ (fun r hr => hl r (List.mem_cons_of_mem _ hr)) q hq
      intro r hr
      by_cases hs : (alookup acc p.1).isSome
      · rw [if_pos hs] at hr
        obtain ⟨r₀, hr₀, hrr⟩ := List.mem_map.mp hr
        by_cases hk : r₀.1 = p.1
        · rw [if_pos hk] at hrr
          rw [← hrr]
          exact hl p (List.mem_cons_self _ _)
        · rw [if_neg hk] at hrr
          rw [← hrr]
          exact hacc r₀ hr₀
      · rw [if_neg hs] at hr
        rcases List.mem_append.mp hr with hr' | hr'
        · exact hacc r hr'
        · rw [List.mem_singleton.mp hr']
          exact hl p (List.mem_cons_self _ _)
  intro q hq
  exact aux m [] (by simp) (fun p hp => List.mem_map_of_mem Prod.snd hp) q hq

theorem mem_canonical34 (m : List (String × String)) (v : String) :
    v ∈ canonical34 m ↔ v ∈ m.map Prod.snd := by
  unfold canonical34
  rw [(List.perm_insertionSort _ _).mem_iff, List.mem_dedup]

theorem aliasMap_range (m : List (String × String)) (k v : String)
    (h : aliasMap m k = some v) :
    v ∈ canonical34 m ∨ v ∈ aliasLiteralUpdates.map Prod.snd := by
  unfold aliasMap at h
  refine foldl_upd_range
    (fun v => v ∈ canonical34 m ∨ v ∈ aliasLiteralUpdates.map Prod.snd)
    aliasLiteralUpdates _ ?_
    (fun p hp => Or.inr (List.mem_map_of_mem Prod.snd hp)) k v h
  intro k' v' h'
  unfold aliasPhase2 at h'
  left
  refine foldl_phase2_range (· ∈ canonical34 m) (pyDict m) _ ?_
    (fun p hp => (mem_canonical34 m p.2).mpr (pyDict_snd_mem m p hp)) k' v' h'
  intro k'' v'' h''
  unfold aliasPhase1 at h''
  exact foldl_phase1_range (· ∈ canonical34 m) (canonical34 m) _
    (fun _ _ h => by cases h) (fun c hc => hc) k'' v'' h''

theorem prefixScan_range (m : List (String × String)) (norm : String)
    (l : List String) (v : String) (h : prefixScan m norm l = some v) :
    v ∈ canonical34 m ∨ v ∈ aliasLiteralUpdates.map Prod.snd ∨
      v ∈ DISTRICT_MAP.map Prod.snd := by
  induction l with
  | nil => cases h
  | cons p ps ih =>
    unfold prefixScan at h
    dsimp only at h
    by_cases hpre : ((p ++ " ").data.isPrefixOf norm.data ||
        (p ++ "-").data.isPrefixOf norm.data) = true
    · rw [if_pos hpre] at h
      cases hX : aliasMap m
          ⟨(pyStrip ⟨norm.data.drop p.length⟩).data.map
            fun c => if c = '-' then ' ' else c⟩ with
      | some w =>
        rw [hX] at h
        rcases aliasMap_range _ _ _ hX with h1 | h1
        · exact Or.inl ((Option.some_inj.mp h) ▸ h1)
        · exact Or.inr (Or.inl ((Option.some_inj.mp h) ▸ h1))
      | none =>
        rw [hX] at h
        cases hY : alookup DISTRICT_MAP
            ⟨(pyStrip ⟨norm.data.drop p.length⟩).data.map
              fun c => if c = '-' then ' ' else c⟩ with
        | some w =>
          rw [hY] at h
          exact Or.inr (Or.inr ((Option.some_inj.mp h) ▸ alookup_mem_values _ _ _ hY))
        | none =>
          rw [hY] at h
          exact ih h
    · rw [if_neg hpre] at h
      exact ih h

end BatchNormalize

namespace BatchNormalize

theorem step2Lookup_range (m : List (String × String)) (raw v : String)
    (h : step2Lookup m raw = some v) :
    v ∈ canonical34 m ∨ v ∈ aliasLiteralUpdates.map Prod.snd ∨
      v ∈ DISTRICT_MAP.map Prod.snd := by
  unfold step2Lookup at h
  by_cases hg : repairMojibake raw ≠ "" ∧ repairMojibake raw ≠ raw
  · rw [if_pos hg] at h
    cases hX : aliasMap m (normalize (repairMojibake raw)) with
    | some w =>
      rw [hX] at h
      rcases aliasMap_range _ _ _ hX with h1 | h1
      · exact Or.inl ((Option.some_inj.mp h) ▸ h1)
      · exact Or.inr (Or.inl ((Option.some_inj.mp h) ▸ h1))
    | none =>
      rw [hX] at h
      exact Or.inr (Or.inr (alookup_mem_values _ _ _ h))
  · rw [if_neg hg] at h
    cases h

theorem tailLookups_range (m : List (String × String)) (raw : String) :
    tailLookups m raw = "" ∨ tailLookups m raw ∈ canonical34 m ∨
      tailLookups m raw ∈ aliasLiteralUpdates.map Prod.snd ∨
      tailLookups m raw ∈ DISTRICT_MAP.map Prod.snd := by
  unfold tailLookups
  cases hA : aliasMap m (normalize raw) with
  | some w =>
    rcases aliasMap_range _ _ _ hA with h1 | h1
    · exact Or.inr (Or.inl h1)
    · exact Or.inr (Or.inr (Or.inl h1))
  | none =>
    cases hB : alookup DISTRICT_MAP (normalize raw) with
    | some w => exact Or.inr (Or.inr (Or.inr (alookup_mem_values _ _ _ hB)))
    | none =>
      cases hP : prefixScan m (normalize raw) PREFIXES with
      | some w =>
        rcases prefixScan_range _ _ _ _ hP with h1 | h1 | h1
        · exact Or.inr (Or.inl h1)
        · exact Or.inr (Or.inr (Or.inl h1))
        · exact Or.inr (Or.inr (Or.inr h1))
      | none => exact Or.inl rfl

/-- C1: whenever the repaired names hard-coded in the three static tables
all belong to the canonical list derived from the province-mapping CSV
(34 names in the repository's data), `normalize_province` — on any input,
including None, NaN and whitespace-only strings — returns either `""` or a
member of that canonical list, never a name outside it. -/
theorem normalize_province_canonical (m : List (String × String))
    (h : ∀ v ∈ CORRUPTED_WEATHER.map Prod.snd ++ aliasLiteralUpdates.map Prod.snd ++
        DISTRICT_MAP.map Prod.snd, v ∈ canonical34 m) (inp : RawInput) :
    normalize_province m inp = "" ∨ normalize_province m inp ∈ canonical34 m := by
  have hCW : ∀ v ∈ CORRUPTED_WEATHER.map Prod.snd, v ∈ canonical34 m := fun v hv =>
    h v (List.mem_append_left _ (List.mem_append_left _ hv))
  have hAL : ∀ v ∈ aliasLiteralUpdates.map Prod.snd, v ∈ canonical34 m := fun v hv =>
    h v (List.mem_append_left _ (List.mem_append_right _ hv))
  have hDM : ∀ v ∈ DISTRICT_MAP.map Prod.snd, v ∈ canonical34 m := fun v hv =>
    h v (List.mem_append_right _ hv)
  cases inp with
  | pyNone => exact Or.inl rfl
  | pyNaN => exact Or.inl rfl
  | pyStr s =>
    show (if pyStrip s = "" then "" else normalizeProvinceStr m (pyStrip s)) = "" ∨
      (if pyStrip s = "" then "" else normalizeProvinceStr m (pyStrip s)) ∈ canonical34 m
    by_cases hraw : pyStrip s = ""
    · rw [if_pos hraw]
      exact Or.inl rfl
    · rw [if_neg hraw]
      unfold normalizeProvinceStr
      cases hc : alookup CORRUPTED_WEATHER (pyStrip s) with
      | some v => exact Or.inr (hCW v (alookup_mem_values _ _ _ hc))
      | none =>
        cases hs : step2Lookup m (pyStrip s) with
        | some v =>
          rcases step2Lookup_range _ _ _ hs with h1 | h1 | h1
          · exact Or.inr h1
          · exact Or.inr (hAL _ h1)
          · exact Or.inr (hDM _ h1)
        | none =>
          rcases tailLookups_range m (pyStrip s) with h1 | h1 | h1 | h1
          · exact Or.inl h1
          · exact Or.inr h1
          · exact Or.inr (hAL _ h1)
          · exact Or.inr (hDM _ h1)

end BatchNormalize

namespace BatchNormalize

set_option maxRecDepth 100000 in
/-- C1 witness: instantiating the mapping CSV with one `(v, v)` row per
hard-coded table value satisfies the hypothesis, and the theorem applies,
e.g. to the district-prefixed input `"thanh pho chau doc"`. -/
theorem normalize_province_canonical_witness :
    (∀ v ∈ CORRUPTED_WEATHER.map Prod.snd ++ aliasLiteralUpdates.map Prod.snd ++
        DISTRICT_MAP.map Prod.snd,
      v ∈ canonical34 ((CORRUPTED_WEATHER.map Prod.snd ++
        aliasLiteralUpdates.map Prod.snd ++
        DISTRICT_MAP.map Prod.snd).map fun v => (v, v)))
    ∧ (normalize_province ((CORRUPTED_WEATHER.map Prod.snd ++
          aliasLiteralUpdates.map Prod.snd ++
          DISTRICT_MAP.map Prod.snd).map fun v => (v, v))
          (.pyStr "thanh pho chau doc") = ""
        ∨ normalize_province ((CORRUPTED_WEATHER.map Prod.snd ++
          aliasLiteralUpdates.map Prod.snd ++
          DISTRICT_MAP.map Prod.snd).map fun v => (v, v))
          (.pyStr "thanh pho chau doc") ∈
          canonical34 ((CORRUPTED_WEATHER.map Prod.snd ++
            aliasLiteralUpdates.map Prod.snd ++
            DISTRICT_MAP.map Prod.snd).map fun v => (v, v))) :=
  ⟨by decide, normalize_province_canonical _ (by decide) _⟩

end BatchNormalize

namespace BatchNormalize

theorem lexLtB_irrefl : ∀ l : List Char, lexLtB l l = false := by
  intro l
  induction l with
  | nil => rfl
  | cons c cs ih => simp [lexLtB, ih, lt_irrefl]

theorem lexLtB_trichot : ∀ a b : List Char,
    lexLtB a b = true ∨ a = b ∨ lexLtB b a = true := by
  intro a
  induction a with
  | nil =>
    intro b
    cases b with
    | nil => exact Or.inr (Or.inl rfl)
    | cons y ys => exact Or.inl rfl
  | cons x xs ih =>
    intro b
    cases b with
    | nil => exact Or.inr (Or.inr rfl)
    | cons y ys =>
      rcases lt_trichotomy x y with h | h | h
      · exact Or.inl (by simp [lexLtB, h])
      · subst h
        rcases ih ys with h2 | h2 | h2
        · exact Or.inl (by simp [lexLtB, h2])
        · exact Or.inr (Or.inl (by rw [h2]))
        · exact Or.inr (Or.inr (by simp [lexLtB, h2]))
      · exact Or.inr (Or.inr (by simp [lexLtB, h]))

theorem lexLtB_trans : ∀ a b c : List Char,
    lexLtB a b = true → lexLtB b c = true → lexLtB a c = true := by
  intro a
  induction a with
  | nil =>
    intro b c hab hbc
    cases b with
    | nil => exact hbc
    | cons y ys =>
      cases c with
      | nil => cases hbc
      | cons z zs => rfl
  | cons x xs ih =>
    intro b c hab hbc
    cases b with
    | nil => cases hab
    | cons y ys =>
      cases c with
      | nil => cases hbc
      | cons z zs =>
        simp only [lexLtB, Bool.or_eq_true, Bool.and_eq_true, decide_eq_true_eq] at *
        rcases hab with h1 | ⟨rfl, h1⟩
        · rcases hbc with h2 | ⟨rfl, h2⟩
          · exact Or.inl (lt_trans h1 h2)
          · exact Or.inl h1
        · rcases hbc with h2 | ⟨rfl, h2⟩
          · exact Or.inl h2
          · exact Or.inr ⟨rfl, ih ys zs h1 h2⟩

end BatchNormalize

namespace Analysis

theorem tsLeB_trans (a b c : MergeExtended.Timestamp) (h1 : tsLeB a b = true)
    (h2 : tsLeB b c = true) : tsLeB a c = true := by
  simp only [tsLeB, Bool.or_eq_true, Bool.and_eq_true, decide_eq_true_eq] at *
  omega

instance rowLeB_isTotal : IsTotal ARow (fun a b => rowLeB a b = true) := by
  constructor
  intro a b
  simp only [rowLeB, Bool.or_eq_true, Bool.and_eq_true, decide_eq_true_eq]
  rcases BatchNormalize.lexLtB_trichot a.destination.data b.destination.data with h | h | h
  · exact Or.inl (Or.inl h)
  · have he : a.destination = b.destination := congrArg String.mk h
    rcases tsLeB_total a.date_parsed b.date_parsed with h2 | h2
    · exact Or.inl (Or.inr ⟨he, h2⟩)
    · exact Or.inr (Or.inr ⟨he.symm, h2⟩)
  · exact Or.inr (Or.inl h)

instance rowLeB_isTrans : IsTrans ARow (fun a b => rowLeB a b = true) := by
  constructor
  intro a b c h1 h2
  simp only [rowLeB, Bool.or_eq_true, Bool.and_eq_true, decide_eq_true_eq] at *
  rcases h1 with h1 | ⟨he1, h1⟩
  · rcases h2 with h2 | ⟨he2, h2⟩
    · exact Or.inl (BatchNormalize.lexLtB_trans _ _ _ h1 h2)
    · exact Or.inl (he2 ▸ h1)
  · rcases h2 with h2 | ⟨he2, h2⟩
    · exact Or.inl (he1 ▸ h2)
    · exact Or.inr ⟨he1.trans he2, tsLeB_trans _ _ _ h1 h2⟩

theorem filter_get_at_count {α : Type} (p : α → Bool) :
    ∀ (S : List α) (i : Nat) (x : α), S[i]? = some x → p x = true →
      (S.filter p)[((S.take i).filter p).length]? = some x := by
  intro S
  induction S with
  | nil => intro i x h; cases h
  | cons a as ih =>
    intro i x h hp
    cases i with
    | zero =>
      rw [List.getElem?_cons_zero] at h
      obtain rfl := Option.some_inj.mp h
      simp [List.filter_cons, hp]
    | succ n =>
      rw [List.getElem?_cons_succ] at h
      by_cases hpa : p a
      · simp only [List.take_succ_cons, List.filter_cons, hpa, if_pos, List.length_cons]
        rw [List.getElem?_cons_succ]
        exact ih n x h hp
      · simp only [List.take_succ_cons, List.filter_cons, hpa]
        simp only [Bool.false_eq_true, if_neg, ite_false]
        exact ih n x h hp

theorem getD_shift (k j : Nat) (xs : List (Option ℚ)) (hj : j < xs.length) :
    (shiftSeries k xs).getD j Option.none =
      if j < k then Option.none else xs.getD (j - k) Option.none := by
  unfold shiftSeries
  rw [List.getD_eq_getElem?_getD, List.getD_eq_getElem?_getD,
    List.getElem?_take_of_lt hj]
  by_cases h : j < k
  · rw [List.getElem?_append_left (by simpa using h), if_pos h]
    simp [List.getElem?_replicate, h]
  · rw [List.getElem?_append_right (by simpa using h), if_neg h]
    simp

theorem getD_take_eq (xs ys : List (Option ℚ)) (j l : Nat) (hl : l < j)
    (h : xs.take j = ys.take j) :
    xs.getD l Option.none = ys.getD l Option.none := by
  rw [List.getD_eq_getElem?_getD, List.getD_eq_getElem?_getD,
    ← List.getElem?_take_of_lt (l := xs) hl, ← List.getElem?_take_of_lt (l := ys) hl, h]

theorem take_shift1_take (j : Nat) (zs : List (Option ℚ)) (hz : j < zs.length) :
    (shiftSeries 1 zs).take (j + 1) = Option.none :: zs.take j := by
  unfold shiftSeries
  rw [List.take_take, min_eq_left (by omega)]
  simp [List.replicate]

theorem windowAt_shift1_eq (w j : Nat) (xs ys : List (Option ℚ))
    (hx : j < xs.length) (hy : j < ys.length) (h : xs.take j = ys.take j) :
    windowAt w (shiftSeries 1 xs) j = windowAt w (shiftSeries 1 ys) j := by
  unfold windowAt
  rw [take_shift1_take j xs hx, take_shift1_take j ys hy, h]

theorem rollingMean_getD (w j : Nat) (xs : List (Option ℚ)) (hj : j < xs.length) :
    (rollingMeanSeries w xs).getD j Option.none =
      (if (windowAt w xs j).isEmpty then Option.none
       else some (WeatherFeatures.mean (windowAt w xs j))) := by
  unfold rollingMeanSeries
  rw [List.getD_eq_getElem?_getD, List.getElem?_map]
  simp [List.getElem?_range, hj]

theorem rollingVar_getD (w j : Nat) (xs : List (Option ℚ)) (hj : j < xs.length) :
    (rollingVarSeries w xs).getD j Option.none =
      WeatherFeatures.sampleVar (windowAt w xs j) := by
  unfold rollingVarSeries
  rw [List.getD_eq_getElem?_getD, List.getElem?_map]
  simp [List.getElem?_range, hj]

end Analysis

namespace Analysis

theorem shiftSeries_length (k : Nat) (xs : List (Option ℚ)) :
    (shiftSeries k xs).length = xs.length := by
  simp [shiftSeries]

/-- C6: in the frame sorted by (destination, date): row `i` of destination
`d` sits at position `j` of `d`'s group, whose dates are sorted ascending;
each `traffic_lag_{k}m` at that row is the group's traffic `k` positions
earlier (null for the first `k` rows of the group); each rolling mean/std
column is the shift-by-one rolling statistic at position `j`; and both the
rolling and the lag values are unchanged under any change of the traffic
series at positions `≥ j` — no engineered lag or rolling feature depends on
the current month's (or any later) traffic. -/
theorem lag_rolling_spec (df : List ARow) (i : Nat) (r : ARow)
    (hr : (sortRows df)[i]? = some r) :
    let S := sortRows df
    let g := S.filter fun x => x.destination = r.destination
    let gt := groupSeries S r.destination
    let j := groupIdx S i r.destination
    g[j]? = some r
    ∧ (g.map (·.date_parsed)).Sorted (fun a b => tsLeB a b = true)
    ∧ (∀ k, k ∈ [1, 2, 3, 6, 12] →
        (lagCol S k)[i]? =
          some (if j < k then Option.none else gt.getD (j - k) Option.none))
    ∧ (∀ w, w ∈ [3, 6, 12] →
        (rollMeanCol S w)[i]? =
          some ((rollingMeanSeries w (shiftSeries 1 gt)).getD j Option.none)
        ∧ (rollVarCol S w)[i]? =
          some ((rollingVarSeries w (shiftSeries 1 gt)).getD j Option.none)
        ∧ (∀ ys : List (Option ℚ), j < ys.length → gt.take j = ys.take j →
            (rollingMeanSeries w (shiftSeries 1 ys)).getD j Option.none =
              (rollingMeanSeries w (shiftSeries 1 gt)).getD j Option.none
            ∧ (rollingVarSeries w (shiftSeries 1 ys)).getD j Option.none =
              (rollingVarSeries w (shiftSeries 1 gt)).getD j Option.none))
    ∧ (∀ k, k ∈ [1, 2, 3, 6, 12] → ∀ ys : List (Option ℚ),
        j < ys.length → gt.take j = ys.take j →
        (shiftSeries k ys).getD j Option.none =
          (shiftSeries k gt).getD j Option.none) := by
  intro S g gt j
  have hp : (fun x : ARow => decide (x.destination = r.destination)) r = true := by simp
  have hconj1 : g[j]? = some r := filter_get_at_count _ S i r hr hp
  have hjg : j < g.length := by
    rcases List.getElem?_eq_some.mp hconj1 with ⟨h', _⟩
    exact h'
  have hggt : gt.length = g.length := by
    simp [gt, groupSeries, g]
  have hjgt : j < gt.length := by omega
  have hsortedS : List.Sorted (fun a b : ARow => rowLeB a b = true) S :=
    List.sorted_insertionSort _ df
  refine ⟨hconj1, ?_, ?_, ?_, ?_⟩
  · have hgS : List.Sorted (fun a b : ARow => rowLeB a b = true) g :=
      List.Pairwise.filter _ hsortedS
    rw [List.Sorted, List.pairwise_map]
    refine hgS.imp_of_mem ?_
    intro a b ha hb hab
    have hda : a.destination = r.destination := by
      simpa using (List.mem_filter.mp ha).2
    have hdb : b.destination = r.destination := by
      simpa using (List.mem_filter.mp hb).2
    simp only [rowLeB, Bool.or_eq_true, Bool.and_eq_true, decide_eq_true_eq] at hab
    rcases hab with h1 | ⟨_, h1⟩
    · rw [hda, hdb] at h1
      rw [BatchNormalize.lexLtB_irrefl] at h1
      cases h1
    · exact h1
  · intro k _
    unfold lagCol
    rw [PipelineAux.get?_mapIdx, hr]
    simp only [Option.map_some']
    rw [getD_shift k j gt hjgt]
  · intro w _
    refine ⟨?_, ?_, ?_⟩
    · unfold rollMeanCol
      rw [PipelineAux.get?_mapIdx, hr]
      rfl
    · unfold rollVarCol
      rw [PipelineAux.get?_mapIdx, hr]
      rfl
    · intro ys hys htake
      have hwin : windowAt w (shiftSeries 1 ys) j = windowAt w (shiftSeries 1 gt) j :=
        windowAt_shift1_eq w j ys gt hys hjgt htake.symm
      constructor
      · rw [rollingMean_getD w j _ (by rw [shiftSeries_length]; exact hys),
          rollingMean_getD w j _ (by rw [shiftSeries_length]; exact hjgt), hwin]
      · rw [rollingVar_getD w j _ (by rw [shiftSeries_length]; exact hys),
          rollingVar_getD w j _ (by rw [shiftSeries_length]; exact hjgt), hwin]
  · intro k hk ys hys htake
    rw [getD_shift k j ys hys, getD_shift k j gt hjgt]
    by_cases h : j < k
    · rw [if_pos h, if_pos h]
    · rw [if_neg h, if_neg h]
      have hk1 : 1 ≤ k := by
        simp only [List.mem_cons, List.not_mem_nil, or_false] at hk
        omega
      exact getD_take_eq ys gt (j) (j - k) (by omega) htake.symm

end Analysis

namespace Analysis

/-- C6 witness: in a two-row frame of one destination, the second row is at
group position 1, as the theorem instantiates. -/
theorem lag_rolling_spec_witness :
    (sortRows [⟨"a", ⟨2020, 1, 1⟩, some 1⟩, ⟨"a", ⟨2020, 2, 1⟩, some 2⟩])[1]? =
      some (⟨"a", ⟨2020, 2, 1⟩, some 2⟩ : ARow)
    ∧ ((sortRows [⟨"a", ⟨2020, 1, 1⟩, some 1⟩, ⟨"a", ⟨2020, 2, 1⟩, some 2⟩]).filter
        fun x => x.destination = "a")[groupIdx
          (sortRows [⟨"a", ⟨2020, 1, 1⟩, some 1⟩, ⟨"a", ⟨2020, 2, 1⟩, some 2⟩]) 1 "a"]? =
      some (⟨"a", ⟨2020, 2, 1⟩, some 2⟩ : ARow) :=
  ⟨by decide,
   (lag_rolling_spec [⟨"a", ⟨2020, 1, 1⟩, some 1⟩, ⟨"a", ⟨2020, 2, 1⟩, some 2⟩] 1
      ⟨"a", ⟨2020, 2, 1⟩, some 2⟩ (by decide)).1⟩

end Analysis

namespace ScriptIO

/-- C7 witness: the merge stage's output path is none of its inputs, and
`clean_provinces.py` rewrites one of its inputs in place. -/
theorem script_io_reads_writes_witness :
    ("../data/normalized/merged_tourism_data_extended.csv" ∉ mergeScript.reads)
    ∧ (∃ p ∈ cleanProvincesScript.reads, p ∈ cleanProvincesScript.writes) :=
  ⟨script_io_reads_writes.1 mergeScript (by decide)
      "../data/normalized/merged_tourism_data_extended.csv" (by decide),
   script_io_reads_writes.2 cleanProvincesScript (by decide)⟩

end ScriptIO
